import Mathlib

/-!
Verification development for the per-object network-replication core of the
`hifi` repository (`libraries/entities/src/EntityItem.cpp`).

The C++ state and operations are shallowly embedded:
* machine scalars (`quint64`, `uint8_t`, ...) become `Nat` with explicit
  modular bounds where overflow matters;
* `float`/`glm::vec3` quantities become `ℚ` / triples of `ℚ` (exact
  arithmetic standing in for IEEE floats; `powf` from libm is passed as an
  explicit function argument since it is external to the repository);
* the transactional byte sink (`OctreePacketData`), the variable-length
  integer codec (`ByteCountCoding.h`) and the property-flag codec
  (`PropertyFlags.h`) are not part of the sources; they are modelled from the
  spec (§4.1, §6) as concrete invertible byte codecs over `List Nat`
  (each element a byte value).
-/

namespace EntityModel

/-! ### Byte-level codecs

Modelled from the spec: `ByteCountCoding.h` / `OctreePacketData` are not in
the sources.  §4.1 asks for a minimal variable-length integer codec that
reports exact bytes consumed; we use a little-endian base-128 varint.  Fixed
width fields (`quint64`, UUIDs) are little-endian byte strings. -/

/-- Little-endian base-128 varint encoding of a natural number. -/
def encVar (n : Nat) : List Nat :=
  if h : n < 128 then [n] else (n % 128 + 128) :: encVar (n / 128)
termination_by n
decreasing_by exact Nat.div_lt_self (by omega) (by omega)

/-- Parse a base-128 varint; returns the value and the remaining bytes. -/
def parseVar : List Nat → Option (Nat × List Nat)
  | [] => none
  | b :: rest =>
    if b < 128 then some (b, rest)
    else
      match parseVar rest with
      | some (m, rest') => some ((b - 128) + 128 * m, rest')
      | none => none

theorem parseVar_encVar (n : Nat) (rest : List Nat) :
    parseVar (encVar n ++ rest) = some (n, rest) := by
  induction n using Nat.strong_induction_on with
  | _ n ih =>
    rw [encVar]
    by_cases h : n < 128
    · simp [h, parseVar]
    · have hpos : n / 128 < n := Nat.div_lt_self (by omega) (by omega)
      simp only [h, dite_false, List.cons_append, parseVar]
      rw [ih (n / 128) hpos]
      have : ¬ (n % 128 + 128 < 128) := by omega
      simp only [this, if_false]
      congr 2
      have := Nat.mod_add_div n 128
      omega

/-- Every byte produced by `encVar` is below 256. -/
theorem encVar_bytes_lt (n : Nat) : ∀ b ∈ encVar n, b < 256 := by
  induction n using Nat.strong_induction_on with
  | _ n ih =>
    rw [encVar]
    by_cases h : n < 128
    · simp [h]; omega
    · have hpos : n / 128 < n := Nat.div_lt_self (by omega) (by omega)
      simp only [h, dite_false, List.mem_cons]
      rintro b (rfl | hb)
      · have := Nat.mod_lt n (y := 128) (by omega); omega
      · exact ih _ hpos _ hb

/-- Fixed 8-byte little-endian encoding of a 64-bit value (`quint64`). -/
def encU64 (n : Nat) : List Nat :=
  [n % 256, n / 256 % 256, n / 256 ^ 2 % 256, n / 256 ^ 3 % 256,
   n / 256 ^ 4 % 256, n / 256 ^ 5 % 256, n / 256 ^ 6 % 256, n / 256 ^ 7 % 256]

/-- Parse 8 little-endian bytes into a 64-bit value. -/
def parseU64 : List Nat → Option (Nat × List Nat)
  | b0 :: b1 :: b2 :: b3 :: b4 :: b5 :: b6 :: b7 :: rest =>
    some (b0 + 256 * b1 + 256 ^ 2 * b2 + 256 ^ 3 * b3 + 256 ^ 4 * b4 +
          256 ^ 5 * b5 + 256 ^ 6 * b6 + 256 ^ 7 * b7, rest)
  | _ => none

theorem parseU64_encU64 (n : Nat) (hn : n < 2 ^ 64) (rest : List Nat) :
    parseU64 (encU64 n ++ rest) = some (n, rest) := by
  simp only [encU64, List.cons_append, List.nil_append, parseU64]
  congr 2
  omega

/-- Fixed 16-byte encoding of a 128-bit UUID, as two 64-bit halves. -/
def encU128 (n : Nat) : List Nat :=
  encU64 (n % 2 ^ 64) ++ encU64 (n / 2 ^ 64)

/-- Parse a 16-byte UUID. -/
def parseU128 (bs : List Nat) : Option (Nat × List Nat) :=
  match parseU64 bs with
  | some (lo, rest) =>
    match parseU64 rest with
    | some (hi, rest') => some (lo + 2 ^ 64 * hi, rest')
    | none => none
  | none => none

theorem parseU128_encU128 (n : Nat) (hn : n < 2 ^ 128) (rest : List Nat) :
    parseU128 (encU128 n ++ rest) = some (n, rest) := by
  simp only [encU128, parseU128, List.append_assoc]
  rw [parseU64_encU64 _ (Nat.mod_lt _ (by norm_num))]
  dsimp only
  rw [parseU64_encU64 _ (by omega)]
  dsimp only
  congr 2
  omega

/-- Fixed 2-byte little-endian encoding of a 16-bit value (`quint16`). -/
def encU16 (n : Nat) : List Nat := [n % 256, n / 256 % 256]

/-- Parse 2 little-endian bytes into a 16-bit value. -/
def parseU16 : List Nat → Option (Nat × List Nat)
  | b0 :: b1 :: rest => some (b0 + 256 * b1, rest)
  | _ => none

theorem parseU16_encU16 (n : Nat) (hn : n < 2 ^ 16) (rest : List Nat) :
    parseU16 (encU16 n ++ rest) = some (n, rest) := by
  simp only [encU16, List.cons_append, List.nil_append, parseU16]
  congr 2
  omega

/-- Single-byte encoding of a `uint8_t`. -/
def encU8 (n : Nat) : List Nat := [n % 256]

/-- Parse one byte. -/
def parseU8 : List Nat → Option (Nat × List Nat)
  | b :: rest => some (b, rest)
  | _ => none

theorem parseU8_encU8 (n : Nat) (hn : n < 256) (rest : List Nat) :
    parseU8 (encU8 n ++ rest) = some (n, rest) := by
  simp [encU8, parseU8, Nat.mod_eq_of_lt hn]

/-- Single-byte encoding of a `bool`. -/
def encBool (b : Bool) : List Nat := [if b then 1 else 0]

/-- Parse one byte as a `bool` (nonzero means true). -/
def parseBool : List Nat → Option (Bool × List Nat)
  | b :: rest => some (decide (b ≠ 0), rest)
  | _ => none

theorem parseBool_encBool (b : Bool) (rest : List Nat) :
    parseBool (encBool b ++ rest) = some (b, rest) := by
  cases b <;> simp [encBool, parseBool]

/-- Signed varint: zig-zag mapping into `Nat`, then `encVar`. -/
def encInt (z : Int) : List Nat :=
  encVar (if 0 ≤ z then 2 * z.toNat else 2 * (-z).toNat - 1)

/-- Parse a zig-zag signed varint. -/
def parseInt (bs : List Nat) : Option (Int × List Nat) :=
  match parseVar bs with
  | some (m, rest) =>
    some (if m % 2 = 0 then (m / 2 : Nat) else -(((m + 1) / 2 : Nat) : Int), rest)
  | none => none

theorem parseInt_encInt (z : Int) (rest : List Nat) :
    parseInt (encInt z ++ rest) = some (z, rest) := by
  unfold encInt parseInt
  rw [parseVar_encVar]
  by_cases h : 0 ≤ z
  · simp only [h, if_true]
    have h2 : 2 * z.toNat % 2 = 0 := by omega
    simp only [h2, if_true]
    congr 2
    omega
  · have h4 : ¬((2 * (-z).toNat - 1) % 2 = 0) := by omega
    simp only [h, if_false, if_neg h4, Option.some.injEq, Prod.mk.injEq]
    exact ⟨by omega, trivial⟩

/-- Exact rational scalar codec standing in for the external 4-byte float
codec of `OctreePacketData::appendValue(float)`: numerator as zig-zag varint,
denominator as varint. -/
def encQ (q : ℚ) : List Nat := encInt q.num ++ encVar q.den

/-- Parse a rational scalar. -/
def parseQ (bs : List Nat) : Option (ℚ × List Nat) :=
  match parseInt bs with
  | some (n, rest) =>
    match parseVar rest with
    | some (d, rest') => some ((n : ℚ) / (d : ℚ), rest')
    | none => none
  | none => none

theorem parseQ_encQ (q : ℚ) (rest : List Nat) :
    parseQ (encQ q ++ rest) = some (q, rest) := by
  unfold encQ parseQ
  rw [List.append_assoc, parseInt_encInt]
  dsimp only
  rw [parseVar_encVar]
  simp [Rat.num_div_den]

/-- Length-prefixed byte string, standing in for the external
`OctreePacketData::appendValue(QByteArray)` (length, then raw bytes). -/
def encBlob (xs : List Nat) : List Nat := encVar xs.length ++ xs

/-- Parse a length-prefixed byte string. -/
def parseBlob (bs : List Nat) : Option (List Nat × List Nat) :=
  match parseVar bs with
  | some (len, rest) =>
    if len ≤ rest.length then some (rest.take len, rest.drop len) else none
  | none => none

theorem parseBlob_encBlob (xs : List Nat) (rest : List Nat) :
    parseBlob (encBlob xs ++ rest) = some (xs, rest) := by
  unfold encBlob parseBlob
  rw [List.append_assoc, parseVar_encVar]
  simp

/-! ### Vectors, quaternions, cubes

`glm::vec3` / `glm::quat` with exact rational components. -/

/-- A `glm::vec3` with exact rational components. -/
structure Vec3 where
  x : ℚ
  y : ℚ
  z : ℚ
  deriving DecidableEq, Repr

/-- `ENTITY_ITEM_ZERO_VEC3`. -/
def zeroVec3 : Vec3 := ⟨0, 0, 0⟩

/-- Componentwise vector addition. -/
def Vec3.add (a b : Vec3) : Vec3 := ⟨a.x + b.x, a.y + b.y, a.z + b.z⟩

/-- Scalar multiplication of a vector. -/
def Vec3.scale (c : ℚ) (a : Vec3) : Vec3 := ⟨c * a.x, c * a.y, c * a.z⟩

/-- Squared euclidean length.  The source compares `glm::length(v)` with a
nonnegative epsilon; we compare the squared length with the squared epsilon,
which is equivalent since square root is monotone. -/
def Vec3.normSq (a : Vec3) : ℚ := a.x ^ 2 + a.y ^ 2 + a.z ^ 2

/-- A `glm::quat` with exact rational components. -/
structure Quat where
  w : ℚ
  x : ℚ
  y : ℚ
  z : ℚ
  deriving DecidableEq, Repr

/-- An `AACube`: corner plus scale. -/
structure AACube where
  corner : Vec3
  scale : ℚ
  deriving DecidableEq, Repr

/-- Wire encoding standing in for the vec3 payload
(three 4-byte floats in the source). -/
def encVec3 (v : Vec3) : List Nat := encQ v.x ++ encQ v.y ++ encQ v.z

/-- Parse a vec3 payload. -/
def parseVec3 (bs : List Nat) : Option (Vec3 × List Nat) :=
  match parseQ bs with
  | some (x, r1) =>
    match parseQ r1 with
    | some (y, r2) =>
      match parseQ r2 with
      | some (z, r3) => some (⟨x, y, z⟩, r3)
      | none => none
    | none => none
  | none => none

theorem parseVec3_encVec3 (v : Vec3) (rest : List Nat) :
    parseVec3 (encVec3 v ++ rest) = some (v, rest) := by
  unfold encVec3 parseVec3
  rw [List.append_assoc, List.append_assoc, parseQ_encQ]
  dsimp only
  rw [parseQ_encQ]
  dsimp only
  rw [parseQ_encQ]

/-- Wire encoding standing in for the quaternion payload. -/
def encQuat (q : Quat) : List Nat := encQ q.w ++ encQ q.x ++ encQ q.y ++ encQ q.z

/-- Parse a quaternion payload. -/
def parseQuat (bs : List Nat) : Option (Quat × List Nat) :=
  match parseQ bs with
  | some (w, r1) =>
    match parseQ r1 with
    | some (x, r2) =>
      match parseQ r2 with
      | some (y, r3) =>
        match parseQ r3 with
        | some (z, r4) => some (⟨w, x, y, z⟩, r4)
        | none => none
      | none => none
    | none => none
  | none => none

theorem parseQuat_encQuat (q : Quat) (rest : List Nat) :
    parseQuat (encQuat q ++ rest) = some (q, rest) := by
  unfold encQuat parseQuat
  rw [List.append_assoc, List.append_assoc, List.append_assoc, parseQ_encQ]
  dsimp only
  rw [parseQ_encQ]
  dsimp only
  rw [parseQ_encQ]
  dsimp only
  rw [parseQ_encQ]

/-- Wire encoding of an `AACube` payload. -/
def encAACube (c : AACube) : List Nat := encVec3 c.corner ++ encQ c.scale

/-- Parse an `AACube` payload. -/
def parseAACube (bs : List Nat) : Option (AACube × List Nat) :=
  match parseVec3 bs with
  | some (v, r1) =>
    match parseQ r1 with
    | some (s, r2) => some (⟨v, s⟩, r2)
    | none => none
  | none => none

theorem parseAACube_encAACube (c : AACube) (rest : List Nat) :
    parseAACube (encAACube c ++ rest) = some (c, rest) := by
  unfold encAACube parseAACube
  rw [List.append_assoc, parseVec3_encVec3]
  dsimp only
  rw [parseQ_encQ]

/-! ### The state record and its collaborators -/

/-- `SimulationOwner`: owner id (128-bit UUID as `Nat`) plus priority byte.
Modelled from the spec (§3, §4.4): `SimulationOwner.h/.cpp` are not in the
sources; `set` assigns unconditionally and reports whether anything changed,
a null owner is id 0. -/
structure SimulationOwner where
  ownerID : Nat
  priority : Nat
  deriving DecidableEq, Repr

/-- `SimulationOwner::set(const SimulationOwner&)`: last-writer-wins
assignment, returns whether (id, priority) changed. -/
def SimulationOwner.setFrom (old new : SimulationOwner) : SimulationOwner × Bool :=
  (new, decide (old ≠ new))

/-- `SimulationOwner::matchesValidID(id)`: owner equals the given id and is
not the null UUID. -/
def SimulationOwner.matchesValidID (s : SimulationOwner) (nodeID : Nat) : Bool :=
  decide (s.ownerID = nodeID) && decide (s.ownerID ≠ 0)

/-- An attached action record: unique id, type tag, serialized argument
bytes, and the `locallyAddedButNotYetReceived` flag
(`EntityActionInterface`; argument blob kept opaque).
`suppressEdits` models the virtual `shouldSuppressLocationEdits()` of the
concrete action type. -/
structure Action where
  id : Nat
  atype : Nat
  blob : List Nat
  locallyAddedButNotYetReceived : Bool
  suppressEdits : Bool
  deriving DecidableEq, Repr

/-- The `EntityItem` state record: the fields of the per-object replicated
state that `EntityItem.cpp` reads and writes.  `QHash`-backed maps
(`_objectActions`, `_previouslyDeletedActions`) are modelled as lists kept
sorted by key so that iteration order is deterministic (the C++ iteration
order over `QHash` is unspecified). -/
structure EntityItem where
  id : Nat
  etype : Nat
  created : Nat
  lastSimulated : Nat
  lastUpdated : Nat
  lastEdited : Nat
  lastEditedFromRemote : Nat
  lastEditedFromRemoteInRemoteTime : Nat
  position : Vec3
  rotation : Quat
  velocity : Vec3
  angularVelocity : Vec3
  acceleration : Vec3
  gravity : Vec3
  damping : ℚ
  angularDamping : ℚ
  density : ℚ
  restitution : ℚ
  friction : ℚ
  lifetime : ℚ
  dimensions : Vec3
  registrationPoint : Vec3
  visible : Bool
  collisionless : Bool
  collisionMask : Nat
  dynamic : Bool
  locked : Bool
  script : List Nat
  scriptTimestamp : Nat
  collisionSoundURL : List Nat
  userData : List Nat
  marketplaceID : List Nat
  name : List Nat
  href : List Nat
  description : List Nat
  simulationOwner : SimulationOwner
  parentID : Nat
  parentJointIndex : Nat
  queryAACube : AACube
  dirtyFlags : Nat
  objectActions : List Action
  actionsToRemove : List Nat
  previouslyDeletedActions : List (Nat × Nat)
  allActionsDataCache : List Nat
  actionDataDirty : Bool
  actionDataNeedsTransmit : Bool
  deriving DecidableEq, Repr

/-! ### Constants

Dirty-flag bits (`Simulation::DIRTY_*`, header external to the sources: the
individual values are arbitrary distinct bits; only distinctness and the two
composite masks matter), `UNKNOWN_CREATED_TIME`, and the clamp bounds from
`EntityItem.h`. -/

def DIRTY_POSITION : Nat := 1
def DIRTY_ROTATION : Nat := 2
def DIRTY_LINEAR_VELOCITY : Nat := 4
def DIRTY_ANGULAR_VELOCITY : Nat := 8
def DIRTY_MASS : Nat := 16
def DIRTY_MATERIAL : Nat := 32
def DIRTY_MOTION_TYPE : Nat := 64
def DIRTY_SHAPE : Nat := 128
def DIRTY_LIFETIME : Nat := 256
def DIRTY_COLLISION_GROUP : Nat := 512
def DIRTY_SIMULATOR_ID : Nat := 1024
def DIRTY_PHYSICS_ACTIVATION : Nat := 2048
/-- `Simulation::DIRTY_TRANSFORM = DIRTY_POSITION | DIRTY_ROTATION`. -/
def DIRTY_TRANSFORM : Nat := DIRTY_POSITION ||| DIRTY_ROTATION
/-- `Simulation::DIRTY_VELOCITIES = DIRTY_LINEAR_VELOCITY | DIRTY_ANGULAR_VELOCITY`. -/
def DIRTY_VELOCITIES : Nat := DIRTY_LINEAR_VELOCITY ||| DIRTY_ANGULAR_VELOCITY

/-- `UNKNOWN_CREATED_TIME` (0 in `EntityItem.h`). -/
def UNKNOWN_CREATED_TIME : Nat := 0

/-- `ENTITY_ITEM_MIN_DENSITY` (kg/m^3, `EntityItem.h`). -/
def ENTITY_ITEM_MIN_DENSITY : ℚ := 100
/-- `ENTITY_ITEM_MAX_DENSITY` (kg/m^3, `EntityItem.h`). -/
def ENTITY_ITEM_MAX_DENSITY : ℚ := 10000
/-- `ENTITY_ITEM_MIN_RESTITUTION` (`EntityItem.h`). -/
def ENTITY_ITEM_MIN_RESTITUTION : ℚ := 0
/-- `ENTITY_ITEM_MAX_RESTITUTION` (`EntityItem.h`). -/
def ENTITY_ITEM_MAX_RESTITUTION : ℚ := 99 / 100
/-- `ENTITY_ITEM_MIN_FRICTION` (`EntityItem.h`). -/
def ENTITY_ITEM_MIN_FRICTION : ℚ := 0
/-- `ENTITY_ITEM_MAX_FRICTION` (`EntityItem.h`). -/
def ENTITY_ITEM_MAX_FRICTION : ℚ := 10

/-- `ENTITY_COLLISION_MASK_DEFAULT = USER_COLLISION_MASK_ALL` (the low five
user collision bits, `EntityItem.h`). -/
def ENTITY_COLLISION_MASK_DEFAULT : Nat := 31

/-- Clamp a rational into `[lo, hi]` (`glm::clamp` / the
`glm::max(glm::min(..))` pattern of the source). -/
def clampQ (v lo hi : ℚ) : ℚ := max lo (min v hi)

/-! ### Mutators (`update*` / `set*` member functions)

Each function is a direct translation of the corresponding member function
of `EntityItem.cpp` (or, for one-line setters, of its header, which is not
in the sources; those setters are plain field assignments).  World and local
transforms coincide in this model (the entity is modelled parentless; the
parent-transform plumbing lives in `SpatiallyNestable`, outside the
sources). -/

/-- `EntityItem::shouldSuppressLocationEdits`: some attached action suppresses
location edits. -/
def shouldSuppressLocationEdits (r : EntityItem) : Bool :=
  r.objectActions.any (·.suppressEdits)

/-- `EntityItem::updatePosition` (descendant propagation omitted: the model
is a single record). -/
def updatePosition (r : EntityItem) (value : Vec3) : EntityItem :=
  if shouldSuppressLocationEdits r then r
  else if r.position = value then r
  else { r with position := value, dirtyFlags := r.dirtyFlags ||| DIRTY_POSITION }

/-- `EntityItem::updateRotation`. -/
def updateRotation (r : EntityItem) (value : Quat) : EntityItem :=
  if shouldSuppressLocationEdits r then r
  else if r.rotation = value then r
  else { r with rotation := value, dirtyFlags := r.dirtyFlags ||| DIRTY_ROTATION }

/-- `MIN_LINEAR_SPEED` in `EntityItem::updateVelocity` (1 mm/s). -/
def MIN_LINEAR_SPEED : ℚ := 1 / 1000

/-- `EntityItem::updateVelocity`: values with speed below `MIN_LINEAR_SPEED`
are snapped to the zero vector. -/
def updateVelocity (r : EntityItem) (value : Vec3) : EntityItem :=
  if shouldSuppressLocationEdits r then r
  else if r.velocity = value then r
  else if value.normSq < MIN_LINEAR_SPEED ^ 2 then
    { r with velocity := zeroVec3, dirtyFlags := r.dirtyFlags ||| DIRTY_LINEAR_VELOCITY }
  else
    { r with velocity := value, dirtyFlags := r.dirtyFlags ||| DIRTY_LINEAR_VELOCITY }

/-- `MIN_ANGULAR_SPEED` in `EntityItem::updateAngularVelocity` (rad/s). -/
def MIN_ANGULAR_SPEED : ℚ := 2 / 10000

/-- `EntityItem::updateAngularVelocity`. -/
def updateAngularVelocity (r : EntityItem) (value : Vec3) : EntityItem :=
  if shouldSuppressLocationEdits r then r
  else if r.angularVelocity = value then r
  else if value.normSq < MIN_ANGULAR_SPEED ^ 2 then
    { r with angularVelocity := zeroVec3,
             dirtyFlags := r.dirtyFlags ||| DIRTY_ANGULAR_VELOCITY }
  else
    { r with angularVelocity := value,
             dirtyFlags := r.dirtyFlags ||| DIRTY_ANGULAR_VELOCITY }

/-- `EntityItem::setAcceleration` (plain setter from the header). -/
def setAcceleration (r : EntityItem) (value : Vec3) : EntityItem :=
  { r with acceleration := value }

/-- `EntityItem::setDimensions`: non-positive dimensions are rejected. -/
def setDimensions (r : EntityItem) (value : Vec3) : EntityItem :=
  if value.x ≤ 0 ∨ value.y ≤ 0 ∨ value.z ≤ 0 then r
  else { r with dimensions := value }

/-- `EntityItem::updateDimensions`. -/
def updateDimensions (r : EntityItem) (value : Vec3) : EntityItem :=
  if r.dimensions = value then r
  else { (setDimensions r value) with
         dirtyFlags := r.dirtyFlags ||| (DIRTY_SHAPE ||| DIRTY_MASS) }

/-- `EntityItem::updateDensity`. -/
def updateDensity (r : EntityItem) (value : ℚ) : EntityItem :=
  let clamped := clampQ value ENTITY_ITEM_MIN_DENSITY ENTITY_ITEM_MAX_DENSITY
  if r.density = clamped then r
  else { r with density := clamped, dirtyFlags := r.dirtyFlags ||| DIRTY_MASS }

/-- `EntityItem::updateGravity`. -/
def updateGravity (r : EntityItem) (value : Vec3) : EntityItem :=
  if r.gravity = value then r
  else { r with gravity := value, dirtyFlags := r.dirtyFlags ||| DIRTY_LINEAR_VELOCITY }

/-- `EntityItem::updateDamping`. -/
def updateDamping (r : EntityItem) (value : ℚ) : EntityItem :=
  let clamped := clampQ value 0 1
  if r.damping = clamped then r
  else { r with damping := clamped, dirtyFlags := r.dirtyFlags ||| DIRTY_MATERIAL }

/-- `EntityItem::updateAngularDamping`. -/
def updateAngularDamping (r : EntityItem) (value : ℚ) : EntityItem :=
  let clamped := clampQ value 0 1
  if r.angularDamping = clamped then r
  else { r with angularDamping := clamped, dirtyFlags := r.dirtyFlags ||| DIRTY_MATERIAL }

/-- `EntityItem::updateRestitution`. -/
def updateRestitution (r : EntityItem) (value : ℚ) : EntityItem :=
  let clamped := clampQ value ENTITY_ITEM_MIN_RESTITUTION ENTITY_ITEM_MAX_RESTITUTION
  if r.restitution = clamped then r
  else { r with restitution := clamped, dirtyFlags := r.dirtyFlags ||| DIRTY_MATERIAL }

/-- `EntityItem::updateFriction`. -/
def updateFriction (r : EntityItem) (value : ℚ) : EntityItem :=
  let clamped := clampQ value ENTITY_ITEM_MIN_FRICTION ENTITY_ITEM_MAX_FRICTION
  if r.friction = clamped then r
  else { r with friction := clamped, dirtyFlags := r.dirtyFlags ||| DIRTY_MATERIAL }

/-- `EntityItem::updateLifetime`. -/
def updateLifetime (r : EntityItem) (value : ℚ) : EntityItem :=
  if r.lifetime = value then r
  else { r with lifetime := value, dirtyFlags := r.dirtyFlags ||| DIRTY_LIFETIME }

/-- `EntityItem::updateCreated`. -/
def updateCreated (r : EntityItem) (value : Nat) : EntityItem :=
  if r.created = value then r
  else { r with created := value, dirtyFlags := r.dirtyFlags ||| DIRTY_LIFETIME }

/-- `EntityItem::updateCollisionless`. -/
def updateCollisionless (r : EntityItem) (value : Bool) : EntityItem :=
  if r.collisionless = value then r
  else { r with collisionless := value,
                dirtyFlags := r.dirtyFlags ||| DIRTY_COLLISION_GROUP }

/-- `EntityItem::updateCollisionMask`: only the five user bits are kept. -/
def updateCollisionMask (r : EntityItem) (value : Nat) : EntityItem :=
  if r.collisionMask &&& ENTITY_COLLISION_MASK_DEFAULT
      = value &&& ENTITY_COLLISION_MASK_DEFAULT then r
  else { r with collisionMask := value &&& ENTITY_COLLISION_MASK_DEFAULT,
                dirtyFlags := r.dirtyFlags ||| DIRTY_COLLISION_GROUP }

/-- `EntityItem::updateDynamic`. -/
def updateDynamic (r : EntityItem) (value : Bool) : EntityItem :=
  if r.dynamic = value then r
  else { r with dynamic := value, dirtyFlags := r.dirtyFlags ||| DIRTY_MOTION_TYPE }

/-- `EntityItem::setScript` (plain setter). -/
def setScript (r : EntityItem) (value : List Nat) : EntityItem :=
  { r with script := value }

/-- `EntityItem::setScriptTimestamp` (plain setter). -/
def setScriptTimestamp (r : EntityItem) (value : Nat) : EntityItem :=
  { r with scriptTimestamp := value }

/-- `SpatiallyNestable::setRegistrationPoint` clamps into the unit cube. -/
def setRegistrationPoint (r : EntityItem) (value : Vec3) : EntityItem :=
  { r with registrationPoint :=
      ⟨clampQ value.x 0 1, clampQ value.y 0 1, clampQ value.z 0 1⟩ }

/-- `EntityItem::setVisible` (plain setter). -/
def setVisible (r : EntityItem) (value : Bool) : EntityItem :=
  { r with visible := value }

/-- `EntityItem::setLocked` (plain setter). -/
def setLocked (r : EntityItem) (value : Bool) : EntityItem :=
  { r with locked := value }

/-- `EntityItem::setUserData` (plain setter). -/
def setUserData (r : EntityItem) (value : List Nat) : EntityItem :=
  { r with userData := value }

/-- `EntityItem::setMarketplaceID` (plain setter). -/
def setMarketplaceID (r : EntityItem) (value : List Nat) : EntityItem :=
  { r with marketplaceID := value }

/-- `EntityItem::setName` (plain setter). -/
def setName (r : EntityItem) (value : List Nat) : EntityItem :=
  { r with name := value }

/-- `EntityItem::setCollisionSoundURL` (plain setter). -/
def setCollisionSoundURL (r : EntityItem) (value : List Nat) : EntityItem :=
  { r with collisionSoundURL := value }

/-- The UTF-8 bytes of `"hifi://"`. -/
def hifiPrefix : List Nat := [104, 105, 102, 105, 58, 47, 47]

/-- ASCII lower-casing of one byte (`QString::toLower` restricted to ASCII,
which covers the `hifi://` prefix test). -/
def byteToLower (b : Nat) : Nat := if 65 ≤ b ∧ b ≤ 90 then b + 32 else b

/-- `EntityItem::setHref`: only values whose lower-casing starts with
`hifi://` are accepted; everything else leaves the field unchanged. -/
def setHref (r : EntityItem) (value : List Nat) : EntityItem :=
  if (value.map byteToLower).take 7 = hifiPrefix then { r with href := value } else r

/-- `EntityItem::setDescription` (plain setter). -/
def setDescription (r : EntityItem) (value : List Nat) : EntityItem :=
  { r with description := value }

/-- `SpatiallyNestable::setParentID` (field assignment; the tree re-linking
lives outside the sources). -/
def setParentID (r : EntityItem) (value : Nat) : EntityItem :=
  { r with parentID := value }

/-- `EntityItem::setParentJointIndex` (plain setter). -/
def setParentJointIndex (r : EntityItem) (value : Nat) : EntityItem :=
  { r with parentJointIndex := value }

/-- `SpatiallyNestable::setQueryAACube` (field assignment). -/
def setQueryAACube (r : EntityItem) (value : AACube) : EntityItem :=
  { r with queryAACube := value }

/-- `EntityItem::hasVelocity`. -/
def hasVelocity (r : EntityItem) : Bool := decide (r.velocity ≠ zeroVec3)

/-- `EntityItem::hasAngularVelocity`. -/
def hasAngularVelocity (r : EntityItem) : Bool := decide (r.angularVelocity ≠ zeroVec3)

/-- `EntityItem::hasAcceleration`. -/
def hasAcceleration (r : EntityItem) : Bool := decide (r.acceleration ≠ zeroVec3)

/-- `EntityItem::hasActions`. -/
def hasActions (r : EntityItem) : Bool := decide (r.objectActions ≠ [])

/-! ### Kinematic extrapolation (`EntityItem::simulateKinematicMotion`) -/

/-- The two libm/physics-engine functions the extrapolator calls that are
external to the sources, passed explicitly: `powq b e` models `powf(b, e)`,
and `rotInt rot w dt` models the Bullet-substep rotation-integration loop
(`computeBulletRotationStep` plus quaternion normalization) as one function
of the current rotation, angular velocity and elapsed time. -/
structure PhysFns where
  powq : ℚ → ℚ → ℚ
  rotInt : Quat → Vec3 → ℚ → Quat

/-- `EPSILON_ANGULAR_VELOCITY_LENGTH` (0.0017453 rad/s = 0.1 deg/s). -/
def EPSILON_ANGULAR_VELOCITY_LENGTH : ℚ := 17453 / 10000000

/-- `EPSILON_LINEAR_VELOCITY_LENGTH` (0.001 m/s). -/
def EPSILON_LINEAR_VELOCITY_LENGTH : ℚ := 1 / 1000

/-- The angular half of `EntityItem::simulateKinematicMotion`: exponential
angular damping, snap-to-zero below the angular epsilon (with the
motion-type dirty bit when `setFlags` and the speed was positive), otherwise
substep rotation integration. -/
def simulateAngular (ph : PhysFns) (r : EntityItem) (timeElapsed : ℚ)
    (setFlags : Bool) : EntityItem :=
  if hasAngularVelocity r then
    let w := if r.angularDamping > 0 then
        Vec3.scale (ph.powq (1 - r.angularDamping) timeElapsed) r.angularVelocity
      else r.angularVelocity
    if w.normSq < EPSILON_ANGULAR_VELOCITY_LENGTH ^ 2 then
      { r with angularVelocity := zeroVec3,
               dirtyFlags := if setFlags ∧ w.normSq > 0 then
                   r.dirtyFlags ||| DIRTY_MOTION_TYPE
                 else r.dirtyFlags }
    else
      { r with angularVelocity := w,
               rotation := ph.rotInt r.rotation w timeElapsed }
  else r

/-- The linear half of `EntityItem::simulateKinematicMotion`: damp the
velocity first, integrate position with the damped velocity, then apply
acceleration to the velocity; if the resulting speed is below the linear
epsilon zero the velocity (and do not commit the position), otherwise commit
both. -/
def simulateLinear (ph : PhysFns) (r : EntityItem) (timeElapsed : ℚ)
    (setFlags : Bool) : EntityItem :=
  if hasVelocity r then
    let velocity := if r.damping > 0 then
        Vec3.scale (ph.powq (1 - r.damping) timeElapsed) r.velocity
      else r.velocity
    let position := Vec3.add r.position (Vec3.scale timeElapsed velocity)
    let velocity := if hasAcceleration r then
        Vec3.add velocity (Vec3.scale timeElapsed r.acceleration)
      else velocity
    if velocity.normSq < EPSILON_LINEAR_VELOCITY_LENGTH ^ 2 then
      { r with velocity := zeroVec3,
               dirtyFlags := if setFlags ∧ velocity.normSq > 0 then
                   r.dirtyFlags ||| DIRTY_MOTION_TYPE
                 else r.dirtyFlags }
    else
      { r with position := position, velocity := velocity }
  else r

/-- `EntityItem::simulateKinematicMotion(timeElapsed, setFlags)`: clamp the
elapsed time into `[0, 1]` seconds, do nothing if any action is attached,
then run the angular and linear halves. -/
def simulateKinematicMotion (ph : PhysFns) (r : EntityItem) (timeElapsed : ℚ)
    (setFlags : Bool) : EntityItem :=
  let t := clampQ timeElapsed 0 1
  if hasActions r then r
  else simulateLinear ph (simulateAngular ph r t setFlags) t setFlags

/-! ### The action ledger -/

/-- `EntityItem::_maxActionsDataSize` (800 bytes). -/
def maxActionsDataSize : Nat := 800

/-- `EntityItem::_rememberDeletedActionTime` (20 s in microseconds). -/
def rememberDeletedActionTime : Nat := 20 * 1000000

/-- Look up an action by id in the action map. -/
def actionsGet (l : List Action) (aid : Nat) : Option Action :=
  l.find? (fun a => a.id = aid)

/-- Insert (or replace) an action in the id-sorted action map. -/
def actionsInsert : List Action → Action → List Action
  | [], a => [a]
  | b :: rest, a =>
    if a.id < b.id then a :: b :: rest
    else if a.id = b.id then a :: rest
    else b :: actionsInsert rest a

/-- Remove an action by id from the action map. -/
def actionsRemove (l : List Action) (aid : Nat) : List Action :=
  l.filter (fun a => a.id ≠ aid)

/-- Insert (or refresh) a deletion tombstone in the key-sorted tombstone
map (`_previouslyDeletedActions.insert`). -/
def tombInsert : List (Nat × Nat) → Nat → Nat → List (Nat × Nat)
  | [], aid, t => [(aid, t)]
  | (k, v) :: rest, aid, t =>
    if aid < k then (aid, t) :: (k, v) :: rest
    else if aid = k then (aid, t) :: rest
    else (k, v) :: tombInsert rest aid t

/-- Tombstone membership (`_previouslyDeletedActions.contains`). -/
def tombContains (l : List (Nat × Nat)) (aid : Nat) : Bool :=
  l.any (fun p => p.1 = aid)

/-- Serialized form of one action (`EntityActionInterface::serialize`):
type tag, id, argument bytes. -/
def serializeAction (a : Action) : List Nat :=
  encVar a.atype ++ encU128 a.id ++ a.blob

/-- Parse one serialized action into (type, id, argument bytes); `none`
models `ActionConstructionFailure`. -/
def parseAction (bs : List Nat) : Option (Nat × Nat × List Nat) :=
  match parseVar bs with
  | some (t, r1) =>
    match parseU128 r1 with
    | some (i, r2) => some (t, i, r2)
    | none => none
  | none => none

/-- `QDataStream << QVector<QByteArray>`: element count, then each element
length-prefixed. -/
def serializeActionList (l : List Action) : List Nat :=
  encVar l.length ++ (l.map (fun a => encBlob (serializeAction a))).flatten

/-- Read back a `QVector<QByteArray>` (best effort: a malformed tail yields
the elements parsed so far, like a short `QDataStream` read). -/
def takeBlobs : Nat → List Nat → List (List Nat)
  | 0, _ => []
  | n + 1, bs =>
    match parseBlob bs with
    | some (b, rest) => b :: takeBlobs n rest
    | none => []

/-- Parse the serialized action vector. -/
def parseActionList (bs : List Nat) : List (List Nat) :=
  match parseVar bs with
  | some (n, rest) => takeBlobs n rest
  | none => []

/-- `EntityItem::serializeActions`: an empty map serializes to the empty
blob (success); otherwise the serialized vector is produced and the call
fails iff its size reaches `_maxActionsDataSize`.  Returns
(success, serialized bytes). -/
def serializeActionsFn (l : List Action) : Bool × List Nat :=
  if l.length = 0 then (true, [])
  else
    let bytes := serializeActionList l
    if bytes.length ≥ maxActionsDataSize then (false, bytes) else (true, bytes)

/-- `EntityItem::addActionInternal` (the `simulation->addAction` callback is
external and has no effect on the record): insert by id, re-serialize; on
success commit the new cache and set the physics-activation dirty bit. -/
def addActionInternal (r : EntityItem) (a : Action) : EntityItem × Bool :=
  let r1 := { r with objectActions := actionsInsert r.objectActions a }
  let sb := serializeActionsFn r1.objectActions
  if sb.1 then
    ({ r1 with allActionsDataCache := sb.2,
               dirtyFlags := r1.dirtyFlags ||| DIRTY_PHYSICS_ACTIVATION }, true)
  else (r1, false)

/-- `EntityItem::removeActionInternal`: unconditionally record a deletion
tombstone; if present, remove the action, re-serialize the cache, set the
physics-activation dirty bit and mark the action data for transmission. -/
def removeActionInternal (r : EntityItem) (aid : Nat) (now : Nat) : EntityItem × Bool :=
  let r1 := { r with previouslyDeletedActions :=
                tombInsert r.previouslyDeletedActions aid now }
  if (actionsGet r1.objectActions aid).isSome then
    let r2 := { r1 with objectActions := actionsRemove r1.objectActions aid }
    let sb := serializeActionsFn r2.objectActions
    ({ r2 with allActionsDataCache := sb.2,
               dirtyFlags := r2.dirtyFlags ||| DIRTY_PHYSICS_ACTIVATION,
               actionDataNeedsTransmit := true }, sb.1)
  else (r1, false)

/-- `EntityItem::checkWaitingToRemove`: process all pending removals, then
clear the pending list. -/
def checkWaitingToRemove (r : EntityItem) (now : Nat) : EntityItem :=
  let r1 := r.actionsToRemove.foldl (fun s aid => (removeActionInternal s aid now).1) r
  { r1 with actionsToRemove := [] }

/-- Set the `locallyAddedButNotYetReceived` flag on the map entry with the
given id (the C++ mutates the shared action object held by the map). -/
def setLocallyAddedFlag (l : List Action) (aid : Nat) (v : Bool) : List Action :=
  l.map (fun a => if a.id = aid then { a with locallyAddedButNotYetReceived := v } else a)

/-- `EntityItem::addAction`: process pending removals, try the internal add;
on failure roll back via `removeActionInternal` (which also records a
tombstone for the rejected id); on success mark the action as locally added
but not yet received. -/
def addAction (r : EntityItem) (a : Action) (now : Nat) : EntityItem × Bool :=
  let r0 := checkWaitingToRemove r now
  let ar := addActionInternal r0 a
  if ar.2 then
    ({ ar.1 with objectActions := setLocallyAddedFlag ar.1.objectActions a.id true }, true)
  else
    ((removeActionInternal ar.1 a.id now).1, false)

/-- `EntityItem::removeAction`. -/
def removeAction (r : EntityItem) (aid : Nat) (now : Nat) : EntityItem × Bool :=
  removeActionInternal (checkWaitingToRemove r now) aid now

/-- One iteration of the deserialization loop of
`EntityItem::deserializeActionsInternal`: parse the entry (a parse failure
models `ActionConstructionFailure` and drops the entry), skip tombstoned
ids, otherwise update the existing action in place or construct-and-add a
new one, clearing `locallyAddedButNotYetReceived` either way.  The state
carries the record and the set of ids updated so far. -/
def deserializeOne (st : EntityItem × List Nat) (bytes : List Nat) :
    EntityItem × List Nat :=
  let r := st.1
  match parseAction bytes with
  | none => st
  | some (t, aid, args) =>
    if tombContains r.previouslyDeletedActions aid then st
    else
      let upd := st.2 ++ [aid]
      match actionsGet r.objectActions aid with
      | some _ =>
        let acts := r.objectActions.map (fun a =>
          if a.id = aid then
            { a with atype := t, blob := args, locallyAddedButNotYetReceived := false }
          else a)
        ({ r with objectActions := acts }, upd)
      | none =>
        let fresh : Action := ⟨aid, t, args, false, false⟩
        let r1 := (addActionInternal r fresh).1
        ({ r1 with objectActions := setLocallyAddedFlag r1.objectActions aid false }, upd)

/-- `EntityItem::deserializeActionsInternal`: iterate the serialized blob in
the cache, then schedule for removal (and tombstone) every local action not
updated by the blob whose `locallyAddedButNotYetReceived` flag is clear,
then lazily purge tombstones older than the remember window, and mark the
action data dirty.  The early return when the record has no containing tree
element is modelled by the `hasElement` argument. -/
def deserializeActionsInternal (r : EntityItem) (now : Nat) (hasElement : Bool) :
    EntityItem :=
  if ¬hasElement then r
  else
    let serialized := if r.allActionsDataCache.length > 0 then
        parseActionList r.allActionsDataCache
      else []
    let st : EntityItem × List Nat := serialized.foldl deserializeOne (r, [])
    let r1 := st.1
    let updated := st.2
    let stale : List Action := r1.objectActions.filter (fun a =>
      !updated.contains a.id && !a.locallyAddedButNotYetReceived)
    let removeIds : List Nat := stale.map (fun a => a.id)
    let tombs : List (Nat × Nat) :=
      stale.foldl (fun ts a => tombInsert ts a.id now) r1.previouslyDeletedActions
    let r2 := { r1 with
      actionsToRemove := r1.actionsToRemove ++ removeIds,
      previouslyDeletedActions := tombs }
    let r3 := { r2 with previouslyDeletedActions :=
      r2.previouslyDeletedActions.filter (fun p => ¬ (now - p.2 > rememberDeletedActionTime)) }
    { r3 with actionDataDirty := true }

/-- `EntityItem::setActionDataInternal` (and the `setActionData` wrapper,
whose lock is immaterial here): replace the cache and re-deserialize if the
bytes differ, then process pending removals. -/
def setActionDataInternal (r : EntityItem) (actionData : List Nat) (now : Nat)
    (hasElement : Bool) : EntityItem :=
  let r1 := if r.allActionsDataCache = actionData then r
    else deserializeActionsInternal { r with allActionsDataCache := actionData }
      now hasElement
  checkWaitingToRemove r1 now

/-! ### Collision group and mask (`EntityItem::computeCollisionGroupAndFinalMask`)

The `USER_COLLISION_GROUP_*` / `BULLET_COLLISION_GROUP_*` constants and the
physics engine's default-mask table live in headers outside the sources and
are modelled from the spec; the claim proved about the mask formula is
independent of the concrete table values. -/

def USER_COLLISION_GROUP_MY_AVATAR : Nat := 8
def USER_COLLISION_GROUP_OTHER_AVATAR : Nat := 16
/-- `USER_COLLISION_MASK_AVATARS = MY_AVATAR | OTHER_AVATAR`. -/
def USER_COLLISION_MASK_AVATARS : Nat :=
  USER_COLLISION_GROUP_MY_AVATAR ||| USER_COLLISION_GROUP_OTHER_AVATAR

def BULLET_COLLISION_GROUP_DYNAMIC : Nat := 1
def BULLET_COLLISION_GROUP_STATIC : Nat := 2
def BULLET_COLLISION_GROUP_KINEMATIC : Nat := 4
def BULLET_COLLISION_GROUP_COLLISIONLESS : Nat := 32

/-- `Physics::getDefaultCollisionMask` (modelled: collisionless objects
collide with nothing, everything else with all non-collisionless groups). -/
def getDefaultCollisionMask (group : Nat) : Nat :=
  if group = BULLET_COLLISION_GROUP_COLLISIONLESS then 0 else 31

/-- `EntityItem::isMoving`. -/
def isMoving (r : EntityItem) : Bool := hasVelocity r || hasAngularVelocity r

/-- `EntityItem::computeCollisionGroupAndFinalMask(group, mask)`.  The
`uint8_t` user mask is the low byte of the stored mask; `~userMask` on a
`uint8_t` promoted to `int` and truncated back is xor with 255. -/
def computeCollisionGroupAndFinalMask (r : EntityItem) (sessionUUID : Nat) :
    Nat × Nat :=
  if r.collisionless then (BULLET_COLLISION_GROUP_COLLISIONLESS, 0)
  else
    let group :=
      if r.dynamic then BULLET_COLLISION_GROUP_DYNAMIC
      else if isMoving r || hasActions r then BULLET_COLLISION_GROUP_KINEMATIC
      else BULLET_COLLISION_GROUP_STATIC
    let userMask := r.collisionMask % 256
    let userMask :=
      if (decide (userMask &&& USER_COLLISION_GROUP_MY_AVATAR ≠ 0)
            ≠ decide (userMask &&& USER_COLLISION_GROUP_OTHER_AVATAR ≠ 0))
          ∧ r.simulationOwner.ownerID ≠ 0
          ∧ r.simulationOwner.ownerID ≠ sessionUUID then
        userMask ^^^ (USER_COLLISION_MASK_AVATARS ||| (userMask ^^^ 255))
      else userMask
    (group, getDefaultCollisionMask group &&& userMask)

/-! ### Property flags and bitstream versions

The `EntityPropertyList` enum and the protocol version numbers live in
headers outside the sources; the bit positions / version values below are
arbitrary but used consistently by encoder and decoder, which is all the
code under verification depends on. -/

def PROP_SIMULATION_OWNER : Nat := 0
def PROP_POSITION : Nat := 1
def PROP_ROTATION : Nat := 2
def PROP_VELOCITY : Nat := 3
def PROP_ANGULAR_VELOCITY : Nat := 4
def PROP_ACCELERATION : Nat := 5
def PROP_DIMENSIONS : Nat := 6
def PROP_DENSITY : Nat := 7
def PROP_GRAVITY : Nat := 8
def PROP_DAMPING : Nat := 9
def PROP_RESTITUTION : Nat := 10
def PROP_FRICTION : Nat := 11
def PROP_LIFETIME : Nat := 12
def PROP_SCRIPT : Nat := 13
def PROP_SCRIPT_TIMESTAMP : Nat := 14
def PROP_COLLISION_SOUND_URL : Nat := 15
def PROP_REGISTRATION_POINT : Nat := 16
def PROP_ANGULAR_DAMPING : Nat := 17
def PROP_VISIBLE : Nat := 18
def PROP_COLLISIONLESS : Nat := 19
def PROP_COLLISION_MASK : Nat := 20
def PROP_DYNAMIC : Nat := 21
def PROP_LOCKED : Nat := 22
def PROP_USER_DATA : Nat := 23
def PROP_MARKETPLACE_ID : Nat := 24
def PROP_NAME : Nat := 25
def PROP_HREF : Nat := 26
def PROP_DESCRIPTION : Nat := 27
def PROP_ACTION_DATA : Nat := 28
def PROP_PARENT_ID : Nat := 29
def PROP_PARENT_JOINT_INDEX : Nat := 30
def PROP_QUERY_AA_CUBE : Nat := 31
def PROP_LAST_ITEM : Nat := 32

/-- The flag set built by `EntityItem::getEntityProperties` (every property
the base class encodes). -/
def allEntityProperties : Nat := 2 ^ 32 - 1

/-- Clear one bit of a flag set (`propertiesDidntFit -= P`). -/
def remBit (f p : Nat) : Nat := f - (f &&& (1 <<< p))

def VERSION_ENTITIES_SUPPORT_SPLIT_MTU : Nat := 12
def VERSION_ENTITIES_HAS_LAST_SIMULATED_TIME : Nat := 14
def VERSION_ENTITIES_HAS_MARKETPLACE_ID_DAMAGED : Nat := 18
def VERSION_ENTITIES_HAS_MARKETPLACE_ID : Nat := 19

/-! ### Packet sink (`OctreePacketData`, modelled from the spec)

A byte list plus a target size; appends succeed only while the target is
not exceeded, and a failing append leaves the sink unchanged (this captures
the transactional `startLevel/endLevel/discardLevel` rollback the encoder
relies on, reduced to its net effect). -/

/-- The packet sink. -/
structure PacketData where
  bytes : List Nat
  target : Nat
  deriving DecidableEq, Repr

/-- `OctreePacketData::appendRawData`: append when it fits, else leave the
sink unchanged and report failure. -/
def appendRaw (pd : PacketData) (chunk : List Nat) : PacketData × Bool :=
  if pd.bytes.length + chunk.length ≤ pd.target
  then ({ pd with bytes := pd.bytes ++ chunk }, true)
  else (pd, false)

/-- Result of `EntityItem::appendEntityData`
(`OctreeElement::AppendState`). -/
inductive AppendState where
  | completed
  | partialFit
  | noneFit
  deriving DecidableEq, Repr

/-- One `APPEND_ENTITY_PROPERTY(P, payload)` step.  State:
(sink, property flags written so far, properties that didn't fit,
property count, partial flag). -/
def appendProp (requested : Nat) (p : Nat) (payload : List Nat)
    (st : PacketData × Nat × Nat × Nat × Bool) :
    PacketData × Nat × Nat × Nat × Bool :=
  let pd := st.1
  let flags := st.2.1
  let didnt := st.2.2.1
  let count := st.2.2.2.1
  let part := st.2.2.2.2
  if requested.testBit p then
    let ar := appendRaw pd payload
    if ar.2 then (ar.1, flags ||| (1 <<< p), remBit didnt p, count + 1, part)
    else (pd, flags, didnt, count, true)
  else (pd, flags, remBit didnt p, count, part)

/-- `SimulationOwner::toByteArray` (16-byte id, priority byte), wrapped as a
length-prefixed `QByteArray` payload. -/
def encSimOwner (s : SimulationOwner) : List Nat :=
  encBlob (encU128 s.ownerID ++ [s.priority % 256])

/-- The ordered property payload table of `EntityItem::appendEntityData`
(each row: property id and its encoded payload). -/
def propPayloads (r : EntityItem) : List (Nat × List Nat) :=
  [(PROP_SIMULATION_OWNER, encSimOwner r.simulationOwner),
   (PROP_POSITION, encVec3 r.position),
   (PROP_ROTATION, encQuat r.rotation),
   (PROP_VELOCITY, encVec3 r.velocity),
   (PROP_ANGULAR_VELOCITY, encVec3 r.angularVelocity),
   (PROP_ACCELERATION, encVec3 r.acceleration),
   (PROP_DIMENSIONS, encVec3 r.dimensions),
   (PROP_DENSITY, encQ r.density),
   (PROP_GRAVITY, encVec3 r.gravity),
   (PROP_DAMPING, encQ r.damping),
   (PROP_RESTITUTION, encQ r.restitution),
   (PROP_FRICTION, encQ r.friction),
   (PROP_LIFETIME, encQ r.lifetime),
   (PROP_SCRIPT, encBlob r.script),
   (PROP_SCRIPT_TIMESTAMP, encU64 r.scriptTimestamp),
   (PROP_REGISTRATION_POINT, encVec3 r.registrationPoint),
   (PROP_ANGULAR_DAMPING, encQ r.angularDamping),
   (PROP_VISIBLE, encBool r.visible),
   (PROP_COLLISIONLESS, encBool r.collisionless),
   (PROP_COLLISION_MASK, encU8 r.collisionMask),
   (PROP_DYNAMIC, encBool r.dynamic),
   (PROP_LOCKED, encBool r.locked),
   (PROP_USER_DATA, encBlob r.userData),
   (PROP_MARKETPLACE_ID, encBlob r.marketplaceID),
   (PROP_NAME, encBlob r.name),
   (PROP_COLLISION_SOUND_URL, encBlob r.collisionSoundURL),
   (PROP_HREF, encBlob r.href),
   (PROP_DESCRIPTION, encBlob r.description),
   (PROP_ACTION_DATA, encBlob r.allActionsDataCache),
   (PROP_PARENT_ID, encU128 r.parentID),
   (PROP_PARENT_JOINT_INDEX, encU16 r.parentJointIndex),
   (PROP_QUERY_AA_CUBE, encAACube r.queryAACube)]

/-- The coded `lastUpdated` delta (0 when not later than `lastEdited`). -/
def encUpdateDelta (r : EntityItem) : Nat :=
  if r.lastUpdated ≤ r.lastEdited then 0 else r.lastUpdated - r.lastEdited

/-- The coded `lastSimulated` delta (0 when not later than `lastEdited`). -/
def encSimulatedDelta (r : EntityItem) : Nat :=
  if r.lastSimulated ≤ r.lastEdited then 0 else r.lastSimulated - r.lastEdited

/-- The six header chunks before the property flags: 16-byte id, coded type,
8-byte `created`, 8-byte `lastEdited`, coded `lastUpdated` delta, coded
`lastSimulated` delta. -/
def headerBytes (r : EntityItem) : List Nat :=
  encU128 r.id ++ encVar r.etype ++ encU64 r.created ++ encU64 r.lastEdited ++
  encVar (encUpdateDelta r) ++ encVar (encSimulatedDelta r)

/-- `EntityItem::appendEntityData` (sender side).  The header chunks are
appended first (with a placeholder property-flags encoding of the full set,
whose length is maximal); each requested property is then appended if it
still fits; finally the flags are rewritten to the properties that actually
fit and later bytes are shifted down — the net effect of the
`updatePriorBytes` / size-shrink dance of the source.  Returns the updated
sink, the append state, and the flags of the properties that did not fit
(handed back through `entityTreeElementExtraEncodeData`). -/
def appendEntityData (r : EntityItem) (requested : Nat) (pd : PacketData) :
    PacketData × AppendState × Nat :=
  let header := headerBytes r
  let placeholder := encVar (1 <<< PROP_LAST_ITEM)
  if pd.bytes.length + header.length + placeholder.length ≤ pd.target then
    let pd0 : PacketData := { pd with bytes := pd.bytes ++ header ++ placeholder }
    let st := (propPayloads r).foldl
      (fun st row => appendProp requested row.1 row.2 st)
      (pd0, 0, allEntityProperties, 0, false)
    let pd1 := st.1
    let flags := st.2.1
    let didnt := st.2.2.1
    let count := st.2.2.2.1
    let part := st.2.2.2.2
    let appendState := if part then AppendState.partialFit else AppendState.completed
    if count > 0 then
      let payloadBytes := pd1.bytes.drop (pd.bytes.length + header.length + placeholder.length)
      ({ pd with bytes := pd.bytes ++ header ++ encVar flags ++ payloadBytes },
       appendState, didnt)
    else (pd, AppendState.noneFit, didnt)
  else (pd, AppendState.noneFit, allEntityProperties)

/-! ### Decoder (`EntityItem::readEntityDataFromBuffer`) -/

/-- `MINIMUM_HEADER_BYTES` of `readEntityDataFromBuffer`. -/
def MINIMUM_HEADER_BYTES : Nat := 27

/-- The per-call decoding context: bitstream version, the source node's
clock skew (µs), the local session UUID, whether the containing tree knows
the entity is deleted (`EntityTree::isDeletedEntity`), the current time
(`usecTimestampNow`), and whether the record is attached to a tree element
(used by the action deserialization). -/
structure ReadArgs where
  bitstreamVersion : Nat
  clockSkew : Int
  myNodeID : Nat
  knownDeleted : Bool
  now : Nat
  hasElement : Bool
  deriving DecidableEq, Repr

/-- `quint64` minus an `int` clock skew: two's-complement wrap-around. -/
def u64sub (a : Nat) (skew : Int) : Nat :=
  (((a : Int) - skew) % (2 ^ 64 : Int)).toNat

/-- `SimulationOwner::fromByteArray`: 16-byte id plus a priority byte; a
malformed blob leaves a default-constructed owner. -/
def parseSimOwner (bs : List Nat) : SimulationOwner :=
  match parseU128 bs with
  | some (i, rest) =>
    match rest with
    | [p] => ⟨i, p⟩
    | _ => ⟨0, 0⟩
  | none => ⟨0, 0⟩

/-- One `READ_ENTITY_PROPERTY(P, T, setter)` step: when the flag bit is set
the payload bytes are always consumed, and the setter is applied only when
`ow` (the gating `overwriteLocalData`) holds. -/
def readProp {α : Type} (flags : Nat) (p : Nat)
    (parse : List Nat → Option (α × List Nat)) (ow : Bool)
    (apply : EntityItem → α → EntityItem) (r : EntityItem) (s : List Nat) :
    Option (EntityItem × List Nat) :=
  if flags.testBit p then
    match parse s with
    | some (v, s') => some ((if ow then apply r v else r), s')
    | none => none
  else some (r, s)

/-- Intermediate decoder state after the header has been parsed: the
partially updated record, the `overwriteLocalData` decision, the parsed
property flags, the clamped `lastSimulatedFromBufferAdjusted`, and the
remaining bytes. -/
structure DecodeMid where
  mrec : EntityItem
  overwrite : Bool
  flags : Nat
  lastSimAdj : Nat
  rest : List Nat

/-- Header portion of `EntityItem::readEntityDataFromBuffer`: id, type,
`created` (accepted only when still unknown), `lastEdited` with clock-skew
adjustment and clamping, the accept/ignore decision, `lastUpdated` and
`lastSimulated` deltas, and the property flags. -/
def readHeaderStage (r0 : EntityItem) (data : List Nat) (args : ReadArgs) :
    Option DecodeMid := do
  let now := args.now
  let (pid, s1) ← parseU128 data
  let (ptype, s2) ← parseVar s1
  let r := { r0 with id := pid, etype := ptype }
  let (createdFromBuffer, s3) ← parseU64 s2
  let r := if r.created = UNKNOWN_CREATED_TIME then
      let c := u64sub createdFromBuffer args.clockSkew
      let c := if c > now ∨ c = UNKNOWN_CREATED_TIME then now else c
      { r with created := c }
    else r
  let (lastEditedFromBuffer, s4) ← parseU64 s3
  let adj0 := u64sub lastEditedFromBuffer args.clockSkew
  let lastEditedFromBufferAdjusted := if adj0 > now then now else adj0
  let fromSameServerEdit : Bool :=
    decide (lastEditedFromBuffer = r.lastEditedFromRemoteInRemoteTime)
  let ignoreServerPacket : Bool :=
    ((if fromSameServerEdit then decide (r.lastEdited > r.lastEditedFromRemote)
      else decide (r.lastEdited > lastEditedFromBufferAdjusted))
     || args.knownDeleted)
  let overwriteLocalData : Bool := !ignoreServerPacket
  let r := if ignoreServerPacket then r
    else { r with lastEdited := lastEditedFromBufferAdjusted,
                  lastEditedFromRemote := now,
                  lastEditedFromRemoteInRemoteTime := lastEditedFromBuffer }
  let (updateDelta, s5) ← parseVar s4
  let r := if overwriteLocalData then
      { r with lastUpdated := (lastEditedFromBufferAdjusted + updateDelta) % 2 ^ 64 }
    else r
  let simStep ←
    if args.bitstreamVersion ≥ VERSION_ENTITIES_HAS_LAST_SIMULATED_TIME then
      match parseVar s5 with
      | some (simDelta, s6) => some (some simDelta, s6)
      | none => none
    else some (none, s5)
  let lastSimulatedFromBufferAdjusted :=
    match simStep.1 with
    | some simDelta =>
      if overwriteLocalData then
        let v := (lastEditedFromBufferAdjusted + simDelta) % 2 ^ 64
        if v > now then now else v
      else now
    | none => now
  let (flags, s7) ← parseVar simStep.2
  some ⟨r, overwriteLocalData, flags, lastSimulatedFromBufferAdjusted, s7⟩

/-- Simulation-owner and terse-update portion of the decoder: the owner
carried by the packet is applied unconditionally (the server is
authoritative for ownership); position/rotation/velocity/angular
velocity/acceleration are gated by `overwriteLocalData` and by not owning
the simulation locally.  `weOwnSimulation` is evaluated before the packet
owner is applied, as in the source. -/
def readTerseStage (mid : DecodeMid) (args : ReadArgs) :
    Option (EntityItem × List Nat) := do
  let r := mid.mrec
  let flags := mid.flags
  let weOwnSimulation : Bool := r.simulationOwner.matchesValidID args.myNodeID
  let simStep2 ←
    if flags.testBit PROP_SIMULATION_OWNER then
      match parseBlob mid.rest with
      | some (ownerBytes, s8) => some (some (parseSimOwner ownerBytes), s8)
      | none => none
    else some (none, mid.rest)
  let r := match simStep2.1 with
    | some newOwner =>
      if r.simulationOwner = newOwner then { r with simulationOwner := newOwner }
      else { r with simulationOwner := newOwner,
                    dirtyFlags := r.dirtyFlags ||| DIRTY_SIMULATOR_ID }
    | none => r
  let ow2 : Bool := mid.overwrite && !weOwnSimulation
  let (r, s9) ← readProp flags PROP_POSITION parseVec3 ow2 updatePosition r simStep2.2
  let (r, s10) ← readProp flags PROP_ROTATION parseQuat ow2 updateRotation r s9
  let (r, s11) ← readProp flags PROP_VELOCITY parseVec3 ow2 updateVelocity r s10
  let (r, s12) ← readProp flags PROP_ANGULAR_VELOCITY parseVec3 ow2
    updateAngularVelocity r s11
  let (r, s13) ← readProp flags PROP_ACCELERATION parseVec3 ow2 setAcceleration r s12
  some (r, s13)

/-- One decoder property step over the (record, remaining bytes) state:
`readProp` repackaged so long decoder stages stay first-order. -/
def propStep {a : Type} (p : Nat) (parse : List Nat → Option (a × List Nat))
    (apply : EntityItem → a → EntityItem) (flags : Nat) (ow : Bool)
    (st : EntityItem × List Nat) : Option (EntityItem × List Nat) :=
  readProp flags p parse ow apply st.1 st.2

/-- A decoder property step guarded by a bitstream-version condition. -/
def propStepIf {a : Type} (cond : Bool) (p : Nat)
    (parse : List Nat → Option (a × List Nat))
    (apply : EntityItem → a → EntityItem) (flags : Nat) (ow : Bool)
    (st : EntityItem × List Nat) : Option (EntityItem × List Nat) :=
  if cond then propStep p parse apply flags ow st else some st

/-- `READ_ENTITY_PROPERTY(PROP_ACTION_DATA, QByteArray, setActionData)`:
the setter needs the decode context (time, element presence). -/
def setActionDataProp (now : Nat) (hasElement : Bool) (r : EntityItem)
    (bytes : List Nat) : EntityItem :=
  setActionDataInternal r bytes now hasElement

/-- Physical-parameter portion of the decoder (dimensions through
user data), gated by `overwriteLocalData`. -/
def readPhysicsStage (flags : Nat) (ow : Bool) (r : EntityItem) (s : List Nat) :
    Option (EntityItem × List Nat) :=
  (((((((((((((((
    (propStep PROP_DIMENSIONS parseVec3 updateDimensions flags ow (r, s)).bind
    (propStep PROP_DENSITY parseQ updateDensity flags ow)).bind
    (propStep PROP_GRAVITY parseVec3 updateGravity flags ow)).bind
    (propStep PROP_DAMPING parseQ updateDamping flags ow)).bind
    (propStep PROP_RESTITUTION parseQ updateRestitution flags ow)).bind
    (propStep PROP_FRICTION parseQ updateFriction flags ow)).bind
    (propStep PROP_LIFETIME parseQ updateLifetime flags ow)).bind
    (propStep PROP_SCRIPT parseBlob setScript flags ow)).bind
    (propStep PROP_SCRIPT_TIMESTAMP parseU64 setScriptTimestamp flags ow)).bind
    (propStep PROP_REGISTRATION_POINT parseVec3 setRegistrationPoint flags ow)).bind
    (propStep PROP_ANGULAR_DAMPING parseQ updateAngularDamping flags ow)).bind
    (propStep PROP_VISIBLE parseBool setVisible flags ow)).bind
    (propStep PROP_COLLISIONLESS parseBool updateCollisionless flags ow)).bind
    (propStep PROP_COLLISION_MASK parseU8 updateCollisionMask flags ow)).bind
    (propStep PROP_DYNAMIC parseBool updateDynamic flags ow)).bind
    (propStep PROP_LOCKED parseBool setLocked flags ow)).bind
    (propStep PROP_USER_DATA parseBlob setUserData flags ow)

/-- Metadata portion of the decoder (marketplace id through the query cube,
plus the damaged-bitstream marketplace re-read), gated by
`overwriteLocalData`. -/
def readMetaStage (flags : Nat) (ow : Bool) (args : ReadArgs) (r : EntityItem)
    (s : List Nat) : Option (EntityItem × List Nat) :=
  ((((((((
    (propStepIf
      (decide (args.bitstreamVersion ≥ VERSION_ENTITIES_HAS_MARKETPLACE_ID))
      PROP_MARKETPLACE_ID parseBlob setMarketplaceID flags ow (r, s)).bind
    (propStep PROP_NAME parseBlob setName flags ow)).bind
    (propStep PROP_COLLISION_SOUND_URL parseBlob setCollisionSoundURL flags ow)).bind
    (propStep PROP_HREF parseBlob setHref flags ow)).bind
    (propStep PROP_DESCRIPTION parseBlob setDescription flags ow)).bind
    (propStep PROP_ACTION_DATA parseBlob
      (setActionDataProp args.now args.hasElement) flags ow)).bind
    (propStep PROP_PARENT_ID parseU128 setParentID flags ow)).bind
    (propStep PROP_PARENT_JOINT_INDEX parseU16 setParentJointIndex flags ow)).bind
    (propStep PROP_QUERY_AA_CUBE parseAACube setQueryAACube flags ow)).bind
    (propStepIf
      (decide (args.bitstreamVersion = VERSION_ENTITIES_HAS_MARKETPLACE_ID_DAMAGED))
      PROP_MARKETPLACE_ID parseBlob setMarketplaceID flags ow)

/-- Tail of the decoder: when transform or velocities were touched, roll the
state forward by the transit delay (without flag side effects); then refresh
`lastSimulated` unless the local peer owns the simulation. -/
def readTailStage (ph : PhysFns) (args : ReadArgs) (ow : Bool) (lastSimAdj : Nat)
    (r : EntityItem) : EntityItem :=
  let r := if ow ∧ r.dirtyFlags &&& (DIRTY_TRANSFORM ||| DIRTY_VELOCITIES) ≠ 0 then
      simulateKinematicMotion ph r
        (((args.now - lastSimAdj : Nat) : ℚ) / 1000000) false
    else r
  if ow ∧ ¬ (r.simulationOwner.matchesValidID args.myNodeID = true) then
    { r with lastSimulated := args.now }
  else r

/-- `EntityItem::readEntityDataFromBuffer` (receiver side).  Returns the
updated record and the number of bytes consumed; `none` models a read past
the end of the buffer (undefined behaviour of the raw `BufferParser`, never
reached on well-formed input).  The two guarded early returns (old
bitstream, short buffer) consume 0 bytes.  `setSourceUUID` and the
`args.entitiesPerPacket` counter touch only per-packet bookkeeping outside
the replicated record and are not modelled. -/
def readEntityDataFromBuffer (ph : PhysFns) (r : EntityItem) (data : List Nat)
    (args : ReadArgs) : Option (EntityItem × Nat) :=
  if args.bitstreamVersion < VERSION_ENTITIES_SUPPORT_SPLIT_MTU then some (r, 0)
  else if data.length < MINIMUM_HEADER_BYTES then some (r, 0)
  else do
    let mid ← readHeaderStage r data args
    let (r1, sA) ← readTerseStage mid args
    let (r2, sB) ← readPhysicsStage mid.flags mid.overwrite r1 sA
    let (r3, sC) ← readMetaStage mid.flags mid.overwrite args r2 sB
    let r4 := readTailStage ph args mid.overwrite mid.lastSimAdj r3
    some (r4, data.length - sC.length)

/-! ### Helper lemmas -/

theorem clampQ_of_mem {e : ℚ} (h0 : 0 ≤ e) (h1 : e ≤ 1) : clampQ e 0 1 = e := by
  simp [clampQ, min_eq_left h1, max_eq_right h0]

theorem or_and_absorb (x m : Nat) : (x ||| m) &&& m = m := by
  apply Nat.eq_of_testBit_eq
  intro i
  simp only [Nat.testBit_and, Nat.testBit_or]
  cases x.testBit i <;> cases m.testBit i <;> simp

theorem Vec3.scale_one (v : Vec3) : Vec3.scale 1 v = v := by
  simp [Vec3.scale]

/-- The projections of the record untouched by the angular half of
`simulateKinematicMotion`. -/
theorem simulateAngular_frame (ph : PhysFns) (r : EntityItem) (t : ℚ) (f : Bool) :
    (simulateAngular ph r t f).velocity = r.velocity ∧
    (simulateAngular ph r t f).position = r.position ∧
    (simulateAngular ph r t f).damping = r.damping ∧
    (simulateAngular ph r t f).acceleration = r.acceleration ∧
    (simulateAngular ph r t f).objectActions = r.objectActions := by
  unfold simulateAngular
  dsimp only
  split_ifs <;> exact ⟨rfl, rfl, rfl, rfl, rfl⟩

/-- A concrete `powf` stand-in evaluating real exponentiation at exponents 0
and 1 (`x^0 = 1`, `x^1 = x`), enough for the witnesses. -/
def powAt01 (b e : ℚ) : ℚ := if e = 0 then 1 else b

/-- A concrete rotation-integration stand-in: the identity at elapsed 0
(real rotation integration over a zero interval leaves the rotation). -/
def rotIdAt0 (q : Quat) (_ : Vec3) (_ : ℚ) : Quat := q

/-- A concrete `PhysFns` instance for witnesses. -/
def simplePh : PhysFns := ⟨powAt01, rotIdAt0⟩

/-! ### Claim C4 -/

/-- The concrete extrapolation record of the C4 instance: velocity (1,0,0),
damping 1/2, zero acceleration, at the origin, no actions. -/
def c4Rec : EntityItem := {
  id := 1, etype := 0, created := 1, lastSimulated := 0, lastUpdated := 0,
  lastEdited := 0, lastEditedFromRemote := 0, lastEditedFromRemoteInRemoteTime := 0,
  position := ⟨0, 0, 0⟩, rotation := ⟨1, 0, 0, 0⟩, velocity := ⟨1, 0, 0⟩,
  angularVelocity := ⟨0, 0, 0⟩, acceleration := ⟨0, 0, 0⟩, gravity := ⟨0, 0, 0⟩,
  damping := 1 / 2, angularDamping := 0, density := 1000, restitution := 1 / 2,
  friction := 1 / 2, lifetime := 0, dimensions := ⟨1, 1, 1⟩,
  registrationPoint := ⟨1 / 2, 1 / 2, 1 / 2⟩, visible := true,
  collisionless := false, collisionMask := 31, dynamic := false, locked := false,
  script := [], scriptTimestamp := 0, collisionSoundURL := [], userData := [],
  marketplaceID := [], name := [], href := [], description := [],
  simulationOwner := ⟨0, 0⟩, parentID := 0, parentJointIndex := 0,
  queryAACube := ⟨⟨0, 0, 0⟩, 1⟩, dirtyFlags := 0, objectActions := [],
  actionsToRemove := [], previouslyDeletedActions := [], allActionsDataCache := [],
  actionDataDirty := false, actionDataNeedsTransmit := false }

/-- The C4 counterexample record: velocity (1,0,0), no damping, acceleration
(-1,0,0); after one second the velocity is exactly zero. -/
def c4CexRec : EntityItem := { c4Rec with damping := 0, acceleration := ⟨-1, 0, 0⟩ }

/-- C4 counterexample: with velocity (1,0,0), zero damping and acceleration
(-1,0,0), `advance(1.0)` with flags requested leaves the velocity exactly
zero — below the epsilon — yet the motion-type dirty bit is NOT set (the
source sets it only when the residual speed is positive), contradicting the
claim that the bit is set whenever the resulting speed is below 0.001 and
flags are requested. -/
theorem c4_counterexample :
    (simulateKinematicMotion simplePh c4CexRec 1 true).velocity = zeroVec3 ∧
    (simulateKinematicMotion simplePh c4CexRec 1 true).dirtyFlags
      &&& DIRTY_MOTION_TYPE = 0 ∧
    c4CexRec.velocity ≠ zeroVec3 ∧ c4CexRec.objectActions = [] := by
  refine ⟨by
  simp only [simulateKinematicMotion, simulateAngular, simulateLinear, hasActions,
    hasAngularVelocity, hasVelocity, hasAcceleration, c4CexRec, c4Rec, clampQ, powAt01,
    simplePh, Vec3.scale, Vec3.add, Vec3.normSq, EPSILON_LINEAR_VELOCITY_LENGTH,
    EPSILON_ANGULAR_VELOCITY_LENGTH, zeroVec3]
  norm_num [Vec3.mk.injEq], by
  simp only [simulateKinematicMotion, simulateAngular, simulateLinear, hasActions,
    hasAngularVelocity, hasVelocity, hasAcceleration, c4CexRec, c4Rec, clampQ, powAt01,
    simplePh, Vec3.scale, Vec3.add, Vec3.normSq, EPSILON_LINEAR_VELOCITY_LENGTH,
    EPSILON_ANGULAR_VELOCITY_LENGTH, zeroVec3]
  norm_num [Vec3.mk.injEq], by decide, rfl⟩

/-- Characterization of the linear half when the record is moving. -/
theorem simulateLinear_moving (ph : PhysFns) (r : EntityItem) (t : ℚ) (f : Bool)
    (hv : hasVelocity r = true) :
    simulateLinear ph r t f =
      (let vd := if r.damping > 0 then
           Vec3.scale (ph.powq (1 - r.damping) t) r.velocity
         else r.velocity
       let v2 := if hasAcceleration r then
           Vec3.add vd (Vec3.scale t r.acceleration)
         else vd
       if v2.normSq < EPSILON_LINEAR_VELOCITY_LENGTH ^ 2 then
         { r with velocity := zeroVec3,
                  dirtyFlags := if f = true ∧ v2.normSq > 0 then
                      r.dirtyFlags ||| DIRTY_MOTION_TYPE
                    else r.dirtyFlags }
       else { r with position := Vec3.add r.position (Vec3.scale t vd),
                     velocity := v2 }) := by
  unfold simulateLinear
  rw [if_pos hv]

/-- C4 (amended): for every record with nonzero velocity and no attached
actions, `simulateKinematicMotion(elapsed)` (elapsed in [0,1]) first damps
the velocity by `powf(1-damping, elapsed)` (the factor is 1 when damping is
0), then adds the damped velocity times elapsed to the position, then adds
acceleration times elapsed to the velocity; if the resulting speed is below
0.001 m/s the velocity is zeroed, the position is not committed, and the
motion-type dirty bit is set when flags are requested *and the residual
speed is positive*; otherwise both the new position and new velocity are
committed.  In particular, velocity (1,0,0), damping 0.5, zero acceleration,
`advance(1.0)` yields velocity (0.5,0,0) and position increment (0.5,0,0). -/
theorem c4_kinematics (ph : PhysFns) (r : EntityItem) (elapsed dfac : ℚ)
    (setFlags : Bool) (h0 : 0 ≤ elapsed) (h1 : elapsed ≤ 1)
    (hact : r.objectActions = []) (hv : r.velocity ≠ zeroVec3)
    (hdf : dfac = if 0 < r.damping then ph.powq (1 - r.damping) elapsed else 1) :
    (((if r.acceleration ≠ zeroVec3 then
         Vec3.add (Vec3.scale dfac r.velocity) (Vec3.scale elapsed r.acceleration)
       else Vec3.scale dfac r.velocity).normSq
        < EPSILON_LINEAR_VELOCITY_LENGTH ^ 2 →
       (simulateKinematicMotion ph r elapsed setFlags).velocity = zeroVec3 ∧
       (simulateKinematicMotion ph r elapsed setFlags).position = r.position ∧
       (setFlags = true →
        0 < (if r.acceleration ≠ zeroVec3 then
               Vec3.add (Vec3.scale dfac r.velocity) (Vec3.scale elapsed r.acceleration)
             else Vec3.scale dfac r.velocity).normSq →
        (simulateKinematicMotion ph r elapsed setFlags).dirtyFlags
          &&& DIRTY_MOTION_TYPE ≠ 0)) ∧
     (¬ (if r.acceleration ≠ zeroVec3 then
           Vec3.add (Vec3.scale dfac r.velocity) (Vec3.scale elapsed r.acceleration)
         else Vec3.scale dfac r.velocity).normSq
          < EPSILON_LINEAR_VELOCITY_LENGTH ^ 2 →
       (simulateKinematicMotion ph r elapsed setFlags).velocity
         = (if r.acceleration ≠ zeroVec3 then
              Vec3.add (Vec3.scale dfac r.velocity) (Vec3.scale elapsed r.acceleration)
            else Vec3.scale dfac r.velocity) ∧
       (simulateKinematicMotion ph r elapsed setFlags).position
         = Vec3.add r.position (Vec3.scale elapsed (Vec3.scale dfac r.velocity)))) ∧
    ((simulateKinematicMotion simplePh c4Rec 1 false).velocity = ⟨1 / 2, 0, 0⟩ ∧
     (simulateKinematicMotion simplePh c4Rec 1 false).position = ⟨1 / 2, 0, 0⟩) := by
  refine ⟨?_, by
  simp only [simulateKinematicMotion, simulateAngular, simulateLinear, hasActions,
    hasAngularVelocity, hasVelocity, hasAcceleration, c4CexRec, c4Rec, clampQ, powAt01,
    simplePh, Vec3.scale, Vec3.add, Vec3.normSq, EPSILON_LINEAR_VELOCITY_LENGTH,
    EPSILON_ANGULAR_VELOCITY_LENGTH, zeroVec3]
  norm_num [Vec3.mk.injEq], by
  simp only [simulateKinematicMotion, simulateAngular, simulateLinear, hasActions,
    hasAngularVelocity, hasVelocity, hasAcceleration, c4CexRec, c4Rec, clampQ, powAt01,
    simplePh, Vec3.scale, Vec3.add, Vec3.normSq, EPSILON_LINEAR_VELOCITY_LENGTH,
    EPSILON_ANGULAR_VELOCITY_LENGTH, zeroVec3]
  norm_num [Vec3.mk.injEq]⟩
  have hAct : hasActions r = false := by simp [hasActions, hact]
  have hr' : simulateKinematicMotion ph r elapsed setFlags
      = simulateLinear ph (simulateAngular ph r elapsed setFlags) elapsed setFlags := by
    unfold simulateKinematicMotion
    rw [clampQ_of_mem h0 h1, hAct]
    simp
  obtain ⟨hfv, hfp, hfd, hfa, _⟩ := simulateAngular_frame ph r elapsed setFlags
  have hvel : hasVelocity (simulateAngular ph r elapsed setFlags) = true := by
    simp [hasVelocity, hfv, hv]
  rw [hr', simulateLinear_moving _ _ _ _ hvel]
  dsimp only
  simp only [hasAcceleration, hfd, hfv, hfa, decide_eq_true_eq, gt_iff_lt]
  have hvd : (if 0 < r.damping then
      Vec3.scale (ph.powq (1 - r.damping) elapsed) r.velocity
    else r.velocity) = Vec3.scale dfac r.velocity := by
    rw [hdf]
    by_cases hd : 0 < r.damping
    · simp [hd]
    · simp [hd, Vec3.scale_one]
  rw [hvd]
  constructor
  · intro hsmall
    rw [if_pos hsmall]
    refine ⟨rfl, by simpa using hfp, fun hsf hpos => ?_⟩
    rw [if_pos ⟨hsf, hpos⟩]
    dsimp only
    rw [or_and_absorb]
    decide
  · intro hbig
    rw [if_neg hbig]
    exact ⟨rfl, by simp [hfp]⟩

/-- C4 witness: the amended theorem applied at the concrete instance. -/
theorem c4_kinematics_witness :
    (simulateKinematicMotion simplePh c4Rec 1 false).velocity = ⟨1 / 2, 0, 0⟩ ∧
    (simulateKinematicMotion simplePh c4Rec 1 false).position = ⟨1 / 2, 0, 0⟩ :=
  (c4_kinematics simplePh c4Rec 1 (1 / 2) false (by norm_num) (by norm_num) rfl
    (by decide) (by norm_num [simplePh, powAt01, c4Rec])).2

/-! ### Claim C10 -/

/-- The C10 counterexample record: an attached action suppresses location
edits, and the current velocity is (1,0,0). -/
def c10Rec : EntityItem := { c4Rec with
  objectActions := [⟨5, 0, [], false, true⟩] }

/-- C10 counterexample: with a location-edit-suppressing action attached,
`updateVelocity (2,0,0)` leaves the stored velocity at (1,0,0) — neither the
zero vector nor the requested value, contradicting the claim for "any call"
to the mutator. -/
theorem c10_counterexample :
    (updateVelocity c10Rec ⟨2, 0, 0⟩).velocity = ⟨1, 0, 0⟩ ∧
    (⟨1, 0, 0⟩ : Vec3) ≠ zeroVec3 ∧ (⟨1, 0, 0⟩ : Vec3) ≠ ⟨2, 0, 0⟩ := by
  refine ⟨by decide, by decide, by decide⟩

/-- C10 (amended): when no attached action suppresses location edits, after
`updateVelocity(v)` the stored velocity is exactly zero when `v` differs
from the current velocity and `|v| < 0.001 m/s`, and `v` otherwise; likewise
for `updateAngularVelocity(w)` with the 0.0002 rad/s threshold.  Moreover
(unconditionally) the mutators preserve the invariant that the stored linear
velocity is never a nonzero vector below the threshold. -/
theorem c10_velocity_snap (r : EntityItem) (v w : Vec3)
    (h : shouldSuppressLocationEdits r = false) :
    ((updateVelocity r v).velocity =
       if r.velocity ≠ v ∧ v.normSq < MIN_LINEAR_SPEED ^ 2 then zeroVec3 else v) ∧
    ((updateAngularVelocity r w).angularVelocity =
       if r.angularVelocity ≠ w ∧ w.normSq < MIN_ANGULAR_SPEED ^ 2 then zeroVec3
       else w) ∧
    (∀ r' : EntityItem,
      (r'.velocity = zeroVec3 ∨ ¬ r'.velocity.normSq < MIN_LINEAR_SPEED ^ 2) →
      ((updateVelocity r' v).velocity = zeroVec3 ∨
       ¬ (updateVelocity r' v).velocity.normSq < MIN_LINEAR_SPEED ^ 2)) := by
  refine ⟨?_, ?_, ?_⟩
  · unfold updateVelocity
    rw [h]
    simp only [Bool.false_eq_true, if_false]
    split_ifs <;> simp_all
  · unfold updateAngularVelocity
    rw [h]
    simp only [Bool.false_eq_true, if_false]
    split_ifs <;> simp_all
  · intro r' hr'
    unfold updateVelocity
    split_ifs with h1 h2 h3 <;> simp_all [zeroVec3, Vec3.normSq]

/-- C10 witness: the amended theorem at a concrete suppression-free record:
a small velocity (1/2000, 0, 0) is snapped to zero. -/
theorem c10_velocity_snap_witness :
    (updateVelocity c4Rec ⟨1 / 2000, 0, 0⟩).velocity = zeroVec3 := by
  have := (c10_velocity_snap c4Rec ⟨1 / 2000, 0, 0⟩ ⟨0, 0, 0⟩ (by decide)).1
  rw [this]
  norm_num [c4Rec, Vec3.normSq, MIN_LINEAR_SPEED, Vec3.mk.injEq]

/-! ### Claim C9 -/

/-- C9: under the claim's hypotheses (exactly one of the avatar bits set in
the user mask, simulation owner non-null and different from the local
session), the final mask is literally
`defaultMask(group) AND (userMask XOR (AVATAR_BITS OR NOT userMask))`. -/
theorem c9_collision_mask (r : EntityItem) (sessionUUID g m : Nat)
    (h1 : decide (r.collisionMask % 256 &&& USER_COLLISION_GROUP_MY_AVATAR ≠ 0)
        ≠ decide (r.collisionMask % 256 &&& USER_COLLISION_GROUP_OTHER_AVATAR ≠ 0))
    (h2 : r.simulationOwner.ownerID ≠ 0)
    (h3 : r.simulationOwner.ownerID ≠ sessionUUID)
    (hcall : computeCollisionGroupAndFinalMask r sessionUUID = (g, m)) :
    m = getDefaultCollisionMask g &&&
      ((r.collisionMask % 256) ^^^
        (USER_COLLISION_MASK_AVATARS ||| ((r.collisionMask % 256) ^^^ 255))) := by
  unfold computeCollisionGroupAndFinalMask at hcall
  by_cases hc : r.collisionless = true
  · rw [if_pos hc] at hcall
    injection hcall with hg hm
    subst hg
    subst hm
    simp [getDefaultCollisionMask, BULLET_COLLISION_GROUP_COLLISIONLESS]
  · rw [if_neg hc] at hcall
    dsimp only at hcall
    injection hcall with hg hm
    subst hg
    subst hm
    have hcond := And.intro h1 (And.intro h2 h3)
    rw [if_pos hcond]

/-- The C9 witness record: not collisionless, my-avatar bit set, dynamic,
simulation owned by a non-null peer other than the local session. -/
def c9Rec : EntityItem := { c4Rec with
  collisionMask := 8, dynamic := true, simulationOwner := ⟨5, 1⟩ }

/-- C9 witness: the theorem at a concrete record (user mask 8 becomes 247
after the literal formula; the final mask is 31 AND 247 = 23). -/
theorem c9_collision_mask_witness :
    (23 : Nat) = getDefaultCollisionMask 1 &&&
      ((c9Rec.collisionMask % 256) ^^^
        (USER_COLLISION_MASK_AVATARS ||| ((c9Rec.collisionMask % 256) ^^^ 255))) :=
  c9_collision_mask c9Rec 7 1 23 (by decide) (by decide) (by decide) (by decide)

/-! ### Claim C5 -/

/-- C5: a buffer shorter than the 27-byte minimum header is rejected with 0
bytes consumed and no mutation of the record (this also covers the
pre-split-MTU version guard, which likewise consumes nothing). -/
theorem c5_truncated (ph : PhysFns) (r : EntityItem) (data : List Nat)
    (args : ReadArgs) (h : data.length < MINIMUM_HEADER_BYTES) :
    readEntityDataFromBuffer ph r data args = some (r, 0) := by
  unfold readEntityDataFromBuffer
  split_ifs with h1
  · rfl
  · rfl

/-- C5 witness: the empty buffer. -/
theorem c5_truncated_witness :
    readEntityDataFromBuffer simplePh c4Rec []
      ⟨19, 0, 42, false, 500, false⟩ = some (c4Rec, 0) :=
  c5_truncated simplePh c4Rec [] ⟨19, 0, 42, false, 500, false⟩ (by decide)

/-! ### Created-timestamp frame lemmas (for claim C8)

Each decoder setter leaves `_created` unchanged; the only mutator that
writes a known `_created` is `updateCreated`. -/

theorem updatePosition_created (r : EntityItem) (v : Vec3) :
    (updatePosition r v).created = r.created := by
  unfold updatePosition; split_ifs <;> rfl

theorem updateRotation_created (r : EntityItem) (v : Quat) :
    (updateRotation r v).created = r.created := by
  unfold updateRotation; split_ifs <;> rfl

theorem updateVelocity_created (r : EntityItem) (v : Vec3) :
    (updateVelocity r v).created = r.created := by
  unfold updateVelocity; split_ifs <;> rfl

theorem updateAngularVelocity_created (r : EntityItem) (v : Vec3) :
    (updateAngularVelocity r v).created = r.created := by
  unfold updateAngularVelocity; split_ifs <;> rfl

theorem updateDimensions_created (r : EntityItem) (v : Vec3) :
    (updateDimensions r v).created = r.created := by
  unfold updateDimensions setDimensions; split_ifs <;> rfl

theorem updateDensity_created (r : EntityItem) (v : ℚ) :
    (updateDensity r v).created = r.created := by
  unfold updateDensity; dsimp only; split_ifs <;> rfl

theorem updateGravity_created (r : EntityItem) (v : Vec3) :
    (updateGravity r v).created = r.created := by
  unfold updateGravity; split_ifs <;> rfl

theorem updateDamping_created (r : EntityItem) (v : ℚ) :
    (updateDamping r v).created = r.created := by
  unfold updateDamping; dsimp only; split_ifs <;> rfl

theorem updateAngularDamping_created (r : EntityItem) (v : ℚ) :
    (updateAngularDamping r v).created = r.created := by
  unfold updateAngularDamping; dsimp only; split_ifs <;> rfl

theorem updateRestitution_created (r : EntityItem) (v : ℚ) :
    (updateRestitution r v).created = r.created := by
  unfold updateRestitution; dsimp only; split_ifs <;> rfl

theorem updateFriction_created (r : EntityItem) (v : ℚ) :
    (updateFriction r v).created = r.created := by
  unfold updateFriction; dsimp only; split_ifs <;> rfl

theorem updateLifetime_created (r : EntityItem) (v : ℚ) :
    (updateLifetime r v).created = r.created := by
  unfold updateLifetime; split_ifs <;> rfl

theorem updateCollisionless_created (r : EntityItem) (v : Bool) :
    (updateCollisionless r v).created = r.created := by
  unfold updateCollisionless; split_ifs <;> rfl

theorem updateCollisionMask_created (r : EntityItem) (v : Nat) :
    (updateCollisionMask r v).created = r.created := by
  unfold updateCollisionMask; split_ifs <;> rfl

theorem updateDynamic_created (r : EntityItem) (v : Bool) :
    (updateDynamic r v).created = r.created := by
  unfold updateDynamic; split_ifs <;> rfl

theorem setHref_created (r : EntityItem) (v : List Nat) :
    (setHref r v).created = r.created := by
  unfold setHref; split_ifs <;> rfl

theorem addActionInternal_created (r : EntityItem) (a : Action) :
    (addActionInternal r a).1.created = r.created := by
  unfold addActionInternal; dsimp only; split_ifs <;> rfl

theorem removeActionInternal_created (r : EntityItem) (aid now : Nat) :
    (removeActionInternal r aid now).1.created = r.created := by
  unfold removeActionInternal; dsimp only; split_ifs <;> rfl

theorem foldlRemove_created (l : List Nat) (now : Nat) : ∀ r : EntityItem,
    (l.foldl (fun s aid => (removeActionInternal s aid now).1) r).created
      = r.created := by
  induction l with
  | nil => intro r; rfl
  | cons x xs ih =>
    intro r
    rw [List.foldl_cons, ih, removeActionInternal_created]

theorem checkWaitingToRemove_created (r : EntityItem) (now : Nat) :
    (checkWaitingToRemove r now).created = r.created := by
  unfold checkWaitingToRemove
  exact foldlRemove_created _ _ _

theorem deserializeOne_created (st : EntityItem × List Nat) (bytes : List Nat) :
    (deserializeOne st bytes).1.created = st.1.created := by
  unfold deserializeOne
  rcases parseAction bytes with _ | ⟨t, aid, args⟩
  · rfl
  · dsimp only
    split_ifs
    · rfl
    · rcases actionsGet st.1.objectActions aid with _ | a
      · dsimp only
        exact addActionInternal_created _ _
      · rfl

theorem foldlDeserialize_created (l : List (List Nat)) :
    ∀ st : EntityItem × List Nat,
    (l.foldl deserializeOne st).1.created = st.1.created := by
  induction l with
  | nil => intro st; rfl
  | cons x xs ih =>
    intro st
    rw [List.foldl_cons, ih, deserializeOne_created]

theorem deserializeActionsInternal_created (r : EntityItem) (now : Nat)
    (he : Bool) : (deserializeActionsInternal r now he).created = r.created := by
  unfold deserializeActionsInternal
  split_ifs <;> first
    | rfl
    | exact foldlDeserialize_created _ _

theorem setActionDataInternal_created (r : EntityItem) (bytes : List Nat)
    (now : Nat) (he : Bool) :
    (setActionDataInternal r bytes now he).created = r.created := by
  unfold setActionDataInternal
  dsimp only
  rw [checkWaitingToRemove_created]
  split_ifs with h
  · rfl
  · exact deserializeActionsInternal_created _ _ _

theorem setActionDataProp_created (now : Nat) (he : Bool) (r : EntityItem)
    (bytes : List Nat) : (setActionDataProp now he r bytes).created = r.created :=
  setActionDataInternal_created r bytes now he

theorem simulateAngular_created (ph : PhysFns) (r : EntityItem) (t : ℚ)
    (f : Bool) : (simulateAngular ph r t f).created = r.created := by
  unfold simulateAngular; dsimp only; split_ifs <;> rfl

theorem simulateLinear_created (ph : PhysFns) (r : EntityItem) (t : ℚ)
    (f : Bool) : (simulateLinear ph r t f).created = r.created := by
  unfold simulateLinear; dsimp only; split_ifs <;> rfl

theorem simulateKinematicMotion_created (ph : PhysFns) (r : EntityItem) (t : ℚ)
    (f : Bool) : (simulateKinematicMotion ph r t f).created = r.created := by
  unfold simulateKinematicMotion
  dsimp only
  split_ifs
  · rfl
  · rw [simulateLinear_created, simulateAngular_created]

/-- `readProp` preserves any field its setter preserves (here: `created`). -/
theorem readProp_created {α : Type} (flags p : Nat)
    (parse : List Nat → Option (α × List Nat)) (ow : Bool)
    (apply : EntityItem → α → EntityItem) (r : EntityItem) (s : List Nat)
    (out : EntityItem × List Nat)
    (h : readProp flags p parse ow apply r s = some out)
    (happly : ∀ r v, (apply r v).created = r.created) :
    out.1.created = r.created := by
  unfold readProp at h
  by_cases hb : flags.testBit p = true
  · rw [if_pos hb] at h
    rcases hp : parse s with _ | ⟨v, s2⟩ <;> rw [hp] at h
    · cases h
    · injection h with h2
      subst h2
      dsimp only
      by_cases how : ow = true
      · rw [if_pos how]
        exact happly _ _
      · rw [if_neg how]
  · rw [if_neg hb] at h
    injection h with h2
    subst h2
    rfl

theorem propStep_created {α : Type} (p : Nat)
    (parse : List Nat → Option (α × List Nat))
    (apply : EntityItem → α → EntityItem) (flags : Nat) (ow : Bool)
    (st out : EntityItem × List Nat)
    (h : propStep p parse apply flags ow st = some out)
    (happly : ∀ r v, (apply r v).created = r.created) :
    out.1.created = st.1.created :=
  readProp_created flags p parse ow apply st.1 st.2 out h happly

theorem propStepIf_created {α : Type} (cond : Bool) (p : Nat)
    (parse : List Nat → Option (α × List Nat))
    (apply : EntityItem → α → EntityItem) (flags : Nat) (ow : Bool)
    (st out : EntityItem × List Nat)
    (h : propStepIf cond p parse apply flags ow st = some out)
    (happly : ∀ r v, (apply r v).created = r.created) :
    out.1.created = st.1.created := by
  unfold propStepIf at h
  split_ifs at h
  · exact propStep_created _ _ _ _ _ _ _ h happly
  · injection h with h2
    subst h2
    rfl

/-- Chaining preservation through an `Option.bind`. -/
theorem bind_created {x : Option (EntityItem × List Nat)}
    {g : EntityItem × List Nat → Option (EntityItem × List Nat)} {c0 : Nat}
    (hx : ∀ st, x = some st → st.1.created = c0)
    (hg : ∀ st out, g st = some out → out.1.created = st.1.created) :
    ∀ out, x.bind g = some out → out.1.created = c0 := by
  intro out h
  rw [Option.bind_eq_some] at h
  obtain ⟨a, ha, hga⟩ := h
  rw [hg a out hga, hx a ha]

/-! ### Encoder characterization (enough budget ⇒ COMPLETED) -/

/-- Total length of the requested payloads of a property row list. -/
def payloadSize (req : Nat) : List (Nat × List Nat) → Nat
  | [] => 0
  | row :: rest =>
    (if req.testBit row.1 then row.2.length else 0) + payloadSize req rest

/-- Concatenation of the requested payloads, in declared order. -/
def payloadConcat (req : Nat) : List (Nat × List Nat) → List Nat
  | [] => []
  | row :: rest =>
    (if req.testBit row.1 then row.2 else []) ++ payloadConcat req rest

/-- Property flags accumulated over the rows. -/
def flagsAfter (req : Nat) (flags : Nat) : List (Nat × List Nat) → Nat
  | [] => flags
  | row :: rest =>
    flagsAfter req (if req.testBit row.1 then flags ||| (1 <<< row.1) else flags) rest

/-- The didn't-fit flags after processing the rows (every processed row is
removed from the set). -/
def didntAfter (didnt : Nat) : List (Nat × List Nat) → Nat
  | [] => didnt
  | row :: rest => didntAfter (remBit didnt row.1) rest

/-- Number of requested rows. -/
def countReq (req : Nat) : List (Nat × List Nat) → Nat
  | [] => 0
  | row :: rest => (if req.testBit row.1 then 1 else 0) + countReq req rest

/-- With enough budget for every requested payload, the
`APPEND_ENTITY_PROPERTY` fold appends exactly the requested payloads in
order, never sets the partial flag, and counts the requested rows. -/
theorem appendProps_fits (req : Nat) (rows : List (Nat × List Nat)) :
    ∀ (pd : PacketData) (flags didnt count : Nat) (part : Bool),
    pd.bytes.length + payloadSize req rows ≤ pd.target →
    rows.foldl (fun st row => appendProp req row.1 row.2 st)
        (pd, flags, didnt, count, part) =
      ({ pd with bytes := pd.bytes ++ payloadConcat req rows },
       flagsAfter req flags rows,
       didntAfter didnt rows,
       count + countReq req rows,
       part) := by
  induction rows with
  | nil =>
    intro pd flags didnt count part hbudget
    simp [payloadConcat, flagsAfter, didntAfter, countReq]
  | cons row rest ih =>
    intro pd flags didnt count part hbudget
    rw [List.foldl_cons]
    by_cases hb : req.testBit row.1 = true
    · have hfit : pd.bytes.length + row.2.length ≤ pd.target := by
        unfold payloadSize at hbudget
        rw [if_pos hb] at hbudget
        omega
      have hstep : appendProp req row.1 row.2 (pd, flags, didnt, count, part)
          = ({ pd with bytes := pd.bytes ++ row.2 },
             flags ||| (1 <<< row.1), remBit didnt row.1, count + 1, part) := by
        unfold appendProp appendRaw
        dsimp only
        rw [if_pos hb, if_pos hfit]
        rfl
      rw [hstep, ih]
      · simp only [payloadConcat, flagsAfter, didntAfter, countReq, hb, if_true,
          eq_self_iff_true, Prod.mk.injEq, PacketData.mk.injEq, List.append_assoc,
          true_and, and_true]
        try omega
      · unfold payloadSize at hbudget
        rw [if_pos hb] at hbudget
        simp only [List.length_append]
        omega
    · have hstep : appendProp req row.1 row.2 (pd, flags, didnt, count, part)
          = (pd, flags, remBit didnt row.1, count, part) := by
        unfold appendProp
        dsimp only
        rw [if_neg hb]
      rw [hstep, ih]
      · simp only [payloadConcat, flagsAfter, didntAfter, countReq, hb,
          Bool.false_eq_true, if_false, eq_self_iff_true, Prod.mk.injEq,
          PacketData.mk.injEq, List.nil_append, true_and, and_true]
        try omega
      · unfold payloadSize at hbudget
        rw [if_neg hb] at hbudget
        omega

/-- Bit view of the accumulated flags. -/
theorem flagsAfter_testBit (req : Nat) (rows : List (Nat × List Nat)) :
    ∀ (acc i : Nat),
    (flagsAfter req acc rows).testBit i
      = (acc.testBit i || (req.testBit i && rows.any (fun row => row.1 = i))) := by
  induction rows with
  | nil =>
    intro acc i
    simp [flagsAfter]
  | cons row rest ih =>
    intro acc i
    unfold flagsAfter
    by_cases hb : req.testBit row.1 = true
    · rw [if_pos hb, ih]
      simp only [Nat.testBit_or, List.any_cons, Nat.one_shiftLeft]
      by_cases hip : row.1 = i
      · subst hip
        rw [Nat.testBit_two_pow_self, hb]
        cases acc.testBit row.1 <;>
          cases (rest.any (fun r2 => r2.1 = row.1)) <;> simp
      · rw [Nat.testBit_two_pow_of_ne hip]
        have : decide (row.1 = i) = false := by simp [hip]
        rw [this]
        cases acc.testBit i <;> cases req.testBit i <;>
          cases (rest.any (fun r2 => r2.1 = i)) <;> simp
    · rw [if_neg hb, ih]
      simp only [List.any_cons]
      by_cases hip : row.1 = i
      · subst hip
        have hb' : req.testBit row.1 = false := by
          cases hq : req.testBit row.1
          · rfl
          · exact absurd hq hb
        rw [hb']
        simp
      · have : decide (row.1 = i) = false := by simp [hip]
        rw [this]
        simp

/-- For a request confined to the 32 base properties, the flags written by
the encoder are exactly the requested flags. -/
theorem flagsAfter_eq_req (s : EntityItem) (req : Nat) (hreq : req < 2 ^ 32) :
    flagsAfter req 0 (propPayloads s) = req := by
  apply Nat.eq_of_testBit_eq
  intro i
  rw [flagsAfter_testBit]
  simp only [Nat.zero_testBit, Bool.false_or]
  by_cases hi : i < 32
  · have hany : (propPayloads s).any (fun row => row.1 = i) = true := by
      simp only [propPayloads, List.any_cons, List.any_nil, Bool.or_eq_true,
        decide_eq_true_eq, PROP_SIMULATION_OWNER, PROP_POSITION, PROP_ROTATION,
        PROP_VELOCITY, PROP_ANGULAR_VELOCITY, PROP_ACCELERATION, PROP_DIMENSIONS,
        PROP_DENSITY, PROP_GRAVITY, PROP_DAMPING, PROP_RESTITUTION, PROP_FRICTION,
        PROP_LIFETIME, PROP_SCRIPT, PROP_SCRIPT_TIMESTAMP, PROP_COLLISION_SOUND_URL,
        PROP_REGISTRATION_POINT, PROP_ANGULAR_DAMPING, PROP_VISIBLE,
        PROP_COLLISIONLESS, PROP_COLLISION_MASK, PROP_DYNAMIC, PROP_LOCKED,
        PROP_USER_DATA, PROP_MARKETPLACE_ID, PROP_NAME, PROP_HREF,
        PROP_DESCRIPTION, PROP_ACTION_DATA, PROP_PARENT_ID,
        PROP_PARENT_JOINT_INDEX, PROP_QUERY_AA_CUBE]
      omega
    rw [hany, Bool.and_true]
  · have hz : req.testBit i = false := by
      apply Nat.testBit_lt_two_pow
      calc req < 2 ^ 32 := hreq
        _ ≤ 2 ^ i := Nat.pow_le_pow_right (by norm_num) (by omega)
    simp [hz]

/-- A zero request count means no property bit of the rows is requested. -/
theorem countReq_zero (req : Nat) :
    ∀ rows : List (Nat × List Nat), countReq req rows = 0 →
      ∀ row ∈ rows, req.testBit row.1 = false := by
  intro rows
  induction rows with
  | nil => intro _ row hrow; cases hrow
  | cons r2 rest ih =>
    intro h row hrow
    unfold countReq at h
    rcases List.mem_cons.mp hrow with rfl | hmem
    · by_cases hb : req.testBit row.1 = true
      · rw [if_pos hb] at h
        omega
      · cases hq : req.testBit row.1
        · rfl
        · exact absurd hq hb
    · apply ih _ _ hmem
      omega

/-- When nothing is requested among the rows, the accumulated flags stay
put. -/
theorem flagsAfter_of_countReq_zero (req : Nat) :
    ∀ (rows : List (Nat × List Nat)) (acc : Nat), countReq req rows = 0 →
      flagsAfter req acc rows = acc := by
  intro rows
  induction rows with
  | nil => intro acc _; rfl
  | cons row rest ih =>
    intro acc h
    unfold countReq at h
    unfold flagsAfter
    by_cases hb : req.testBit row.1 = true
    · rw [if_pos hb] at h
      omega
    · rw [if_neg hb]
      apply ih
      omega

/-- A nonzero in-range request selects at least one of the 32 base
properties. -/
theorem countReq_pos (s : EntityItem) (req : Nat) (hreq : req < 2 ^ 32)
    (hne : req ≠ 0) : countReq req (propPayloads s) ≠ 0 := by
  intro h
  apply hne
  rw [← flagsAfter_eq_req s req hreq, flagsAfter_of_countReq_zero req _ 0 h]

/-- The encoded header is never shorter than the decoder's 27-byte
minimum. -/
theorem headerBytes_length_ge (s : EntityItem) : 27 ≤ (headerBytes s).length := by
  simp only [headerBytes, encU128, encU64, List.append_assoc, List.length_append,
    List.length_cons, List.length_nil]
  omega

/-- With enough budget, `appendEntityData` completes: it appends the header,
the requested flags, and every requested payload in declared order. -/
theorem appendEntityData_complete (r : EntityItem) (req : Nat) (pd : PacketData)
    (hreq : req < 2 ^ 32) (hne : req ≠ 0)
    (hbudget : pd.bytes.length + (headerBytes r).length
        + (encVar (1 <<< PROP_LAST_ITEM)).length
        + payloadSize req (propPayloads r) ≤ pd.target) :
    appendEntityData r req pd =
      ({ pd with bytes := pd.bytes ++ headerBytes r ++ encVar req
          ++ payloadConcat req (propPayloads r) },
       AppendState.completed,
       didntAfter allEntityProperties (propPayloads r)) := by
  unfold appendEntityData
  rw [if_pos (by omega)]
  dsimp only
  rw [appendProps_fits req (propPayloads r) _ 0 allEntityProperties 0 false
    (by simp only [List.length_append]; omega)]
  dsimp only
  rw [flagsAfter_eq_req r req hreq]
  have hcount : 0 + countReq req (propPayloads r) > 0 := by
    have := countReq_pos r req hreq hne
    omega
  rw [if_pos hcount]
  rw [List.drop_left' (by simp only [List.length_append])]
  rfl

end EntityModel
